import Mathlib

/-!
# Verification of the Evernode client recognition/decoding engine

A shallow embedding of the Evernode client library's pure core: the
moment (timestamp-window) arithmetic of `BaseEvernodeClient.getMoment` /
`getMomentStartIndex`, the reputation contract-info buffer decoder, the
transaction event classifier `extractEvernodeEvent` (current protocol
generation) together with the legacy-generation candidate-status-change
fragment, and the candidate-propose payload construction of `_propose`.

Modelling conventions:

* JavaScript strings are lists of characters (`JStr`); hex-encoded
  payloads are hex-character strings exactly as the source passes them
  around, and `Buffer.from(s, 'hex')` is `hexToBytes`.
* Byte buffers are `List Nat` with each byte in `0..255`.
* A JavaScript exception is `Except.error ()`; a normal return is
  `Except.ok`.  `null`/`undefined` results are `Option.none`.
* External collaborators (wall clock, payload decryption, `JSON.parse`)
  are explicit parameters; `Math.floor` over an exact quotient of
  integers below `2^53` is integer floor division (`Int.fdiv`).
-/

namespace Evernode

/-- JavaScript strings, modelled as lists of characters. -/
abbrev JStr := List Char

/-- Numeric value of a single hex character (`0-9a-fA-F`), computed on
the character's code point. -/
def hexVal (c : Char) : Option Nat :=
  let n := c.toNat
  if 48 ≤ n ∧ n ≤ 57 then some (n - 48)
  else if 97 ≤ n ∧ n ≤ 102 then some (n - 87)
  else if 65 ≤ n ∧ n ≤ 70 then some (n - 55)
  else none

/-- Node `Buffer.from(s, 'hex')`: consumes complete pairs of hex characters and
stops at the first invalid or incomplete pair (Node semantics). -/
def hexToBytes : JStr → List Nat
  | c1 :: c2 :: rest =>
    match hexVal c1, hexVal c2 with
    | some h, some l => (16 * h + l) :: hexToBytes rest
    | _, _ => []
  | _ => []

/-- Lower-case hex character for a nibble (code points 48.. and 97..). -/
def hexDigitLower (n : Nat) : Char :=
  Char.ofNat (if n < 10 then 48 + n else 87 + n)

/-- Upper-case hex character for a nibble (code points 48.. and 65..). -/
def hexDigitUpper (n : Nat) : Char :=
  Char.ofNat (if n < 10 then 48 + n else 55 + n)

/-- Node `buf.toString('hex')` (lower case, two characters per byte). -/
def hexOfBytesLower : List Nat → JStr
  | [] => []
  | b :: bs => hexDigitLower (b / 16 % 16) :: hexDigitLower (b % 16) :: hexOfBytesLower bs

/-- Node `buf.toString('hex').toUpperCase()` (two characters per byte). -/
def hexOfBytesUpper : List Nat → JStr
  | [] => []
  | b :: bs => hexDigitUpper (b / 16 % 16) :: hexDigitUpper (b % 16) :: hexOfBytesUpper bs

/-! ## Moment arithmetic (`getMoment` / `getMomentStartIndex`) -/

/-- The moment-related part of the client configuration
(`config.momentBaseInfo` and `config.momentSize`). -/
structure MomentCfg where
  baseIdx : Int
  baseTransitionMoment : Int
  momentSize : Int

/-- Source line `const i = index || UtilHelpers.getCurrentUnixTime();` — a missing
*or falsy* (`0`) index argument is replaced by the current wall-clock
time, which is passed in explicitly as `now`. -/
def resolveIndex (now : Int) (index : Option Int) : Int :=
  match index with
  | some v => if v = 0 then now else v
  | none => now

/-- Function `BaseEvernodeClient.getMoment`:
`baseTransitionMoment + Math.floor((i - baseIdx) / momentSize)`. -/
def getMoment (cfg : MomentCfg) (now : Int) (index : Option Int) : Int :=
  cfg.baseTransitionMoment + (resolveIndex now index - cfg.baseIdx).fdiv cfg.momentSize

/-- Function `BaseEvernodeClient.getMomentStartIndex`:
`baseIdx + Math.floor((i - baseIdx) / momentSize) * momentSize`. -/
def getMomentStartIndex (cfg : MomentCfg) (now : Int) (index : Option Int) : Int :=
  cfg.baseIdx + (resolveIndex now index - cfg.baseIdx).fdiv cfg.momentSize * cfg.momentSize

/-- For a positive divisor, the source's `Math.floor(a / m)` (floor
division) agrees with the floor of the exact rational quotient. -/
theorem fdiv_eq_ratFloor (a : Int) {m : Int} (hm : 0 < m) :
    a.fdiv m = ⌊(a : ℚ) / (m : ℚ)⌋ := by
  have hm0 : (0 : Int) ≤ m := le_of_lt hm
  have hd : ((m.toNat : ℤ)) = m := Int.toNat_of_nonneg hm0
  have hq : ((m.toNat : ℚ)) = (m : ℚ) := by exact_mod_cast congrArg (Int.cast : ℤ → ℚ) hd
  rw [Int.fdiv_eq_ediv a hm0]
  calc a / m = a / ((m.toNat : ℤ)) := by rw [hd]
    _ = ⌊((a : ℚ) / ((m.toNat : ℕ) : ℚ))⌋ := (Rat.floor_intCast_div_natCast a m.toNat).symm
    _ = ⌊(a : ℚ) / (m : ℚ)⌋ := by rw [hq]

/-- C4 (amended): for `momentSize > 0` and every explicitly supplied
*nonzero* timestamp `t`, `getMoment` returns
`baseTransitionMoment + ⌊(t - baseIdx) / momentSize⌋` and
`getMomentStartIndex` returns `baseIdx + ⌊(t - baseIdx) / momentSize⌋ * momentSize`,
where `⌊·⌋` is the floor of the exact rational quotient (also for
`t < baseIdx`); the truncating integer division gives a different
function (third conjunct).  The restriction `t ≠ 0` is forced because a
supplied `0` is falsy and is replaced by the current wall-clock time. -/
theorem getMoment_floor_formula (cfg : MomentCfg) (now t : Int)
    (hm : 0 < cfg.momentSize) (ht : t ≠ 0) :
    getMoment cfg now (some t)
      = cfg.baseTransitionMoment + ⌊((t : ℚ) - (cfg.baseIdx : ℚ)) / (cfg.momentSize : ℚ)⌋
    ∧ getMomentStartIndex cfg now (some t)
      = cfg.baseIdx + ⌊((t : ℚ) - (cfg.baseIdx : ℚ)) / (cfg.momentSize : ℚ)⌋ * cfg.momentSize
    ∧ getMoment ⟨0, 0, 10⟩ 99 (some (-5)) ≠ 0 + Int.tdiv (-5 - 0) 10 := by
  have hresolve : resolveIndex now (some t) = t := by simp [resolveIndex, ht]
  have hfloor : (t - cfg.baseIdx).fdiv cfg.momentSize
      = ⌊((t : ℚ) - (cfg.baseIdx : ℚ)) / (cfg.momentSize : ℚ)⌋ := by
    rw [fdiv_eq_ratFloor _ hm]
    push_cast
    ring_nf
  refine ⟨?_, ?_, by decide⟩
  · rw [getMoment, hresolve, hfloor]
  · rw [getMomentStartIndex, hresolve, hfloor]

/-- C4 counterexample: the claim as stated fails for the explicitly
supplied timestamp `0`: the code substitutes the current wall-clock time
(here `1000`), so the result is not the claimed formula value at `t = 0`. -/
theorem getMoment_formula_fails_at_zero :
    getMoment ⟨0, 0, 1⟩ 1000 (some 0)
      ≠ (0 : Int) + ⌊(((0 : Int) : ℚ) - ((0 : Int) : ℚ)) / ((1 : Int) : ℚ)⌋ := by
  norm_num [getMoment, resolveIndex]

/-- C4 witness: the amended theorem applied at a concrete input. -/
theorem getMoment_floor_formula_witness :
    (0 : Int) < 10 ∧ (23 : Int) ≠ 0 ∧
      getMoment ⟨3, 7, 10⟩ 999 (some 23)
        = 7 + ⌊(((23 : Int) : ℚ) - ((3 : Int) : ℚ)) / ((10 : Int) : ℚ)⌋ :=
  ⟨by decide, by decide, (getMoment_floor_formula ⟨3, 7, 10⟩ 999 23 (by decide) (by decide)).1⟩

/-- C5 (amended): with the configuration held fixed, `momentSize > 0`
and nonzero timestamps, `getMomentStartIndex` is idempotent whenever the
inner result is itself nonzero, and `getMoment` is monotone.  The
nonzero restrictions are forced because a falsy (`0`) index argument is
replaced by the current wall-clock time. -/
theorem getMomentStartIndex_idempotent_getMoment_mono (cfg : MomentCfg) (now t t' : Int)
    (hm : 0 < cfg.momentSize) (ht : t ≠ 0) (ht' : t' ≠ 0) :
    (getMomentStartIndex cfg now (some t) ≠ 0 →
      getMomentStartIndex cfg now (some (getMomentStartIndex cfg now (some t)))
        = getMomentStartIndex cfg now (some t))
    ∧ (t ≤ t' → getMoment cfg now (some t) ≤ getMoment cfg now (some t')) := by
  have hresolve : resolveIndex now (some t) = t := by simp [resolveIndex, ht]
  have hresolve' : resolveIndex now (some t') = t' := by simp [resolveIndex, ht']
  constructor
  · intro hs
    have hstart : getMomentStartIndex cfg now (some t)
        = cfg.baseIdx + (t - cfg.baseIdx).fdiv cfg.momentSize * cfg.momentSize := by
      rw [getMomentStartIndex, hresolve]
    rw [hstart] at hs ⊢
    rw [getMomentStartIndex]
    rw [show resolveIndex now
          (some (cfg.baseIdx + (t - cfg.baseIdx).fdiv cfg.momentSize * cfg.momentSize))
        = cfg.baseIdx + (t - cfg.baseIdx).fdiv cfg.momentSize * cfg.momentSize from by
      simp [resolveIndex, hs]]
    have hcancel : (cfg.baseIdx + (t - cfg.baseIdx).fdiv cfg.momentSize * cfg.momentSize
        - cfg.baseIdx) = (t - cfg.baseIdx).fdiv cfg.momentSize * cfg.momentSize := by ring
    rw [hcancel, Int.fdiv_eq_ediv _ (le_of_lt hm), Int.mul_ediv_cancel _ (ne_of_gt hm)]
  · intro hle
    rw [getMoment, getMoment, hresolve, hresolve',
      Int.fdiv_eq_ediv _ (le_of_lt hm), Int.fdiv_eq_ediv _ (le_of_lt hm)]
    have := Int.ediv_le_ediv hm (sub_le_sub_right hle cfg.baseIdx)
    omega

/-- C5 counterexample: idempotence fails as universally stated — with
`baseIdx = 0`, `momentSize = 10` and wall clock `25`, the moment start
of `t = 5` is `0`, which the outer call treats as an absent argument and
replaces by the wall clock, yielding `20 ≠ 0`. -/
theorem getMomentStartIndex_not_idempotent_at_zero_start :
    getMomentStartIndex ⟨0, 0, 10⟩ 25 (some (getMomentStartIndex ⟨0, 0, 10⟩ 25 (some 5)))
      ≠ getMomentStartIndex ⟨0, 0, 10⟩ 25 (some 5) := by
  decide

/-- C5 witness: the amended theorem applied at a concrete input, using
both the idempotence and the monotonicity conjuncts. -/
theorem getMomentStartIndex_idempotent_witness :
    getMomentStartIndex ⟨3, 0, 10⟩ 99 (some (getMomentStartIndex ⟨3, 0, 10⟩ 99 (some 5)))
      = getMomentStartIndex ⟨3, 0, 10⟩ 99 (some 5)
    ∧ getMoment ⟨3, 0, 10⟩ 99 (some 5) ≤ getMoment ⟨3, 0, 10⟩ 99 (some 27) :=
  ⟨(getMomentStartIndex_idempotent_getMoment_mono ⟨3, 0, 10⟩ 99 5 5 (by decide) (by decide)
      (by decide)).1 (by decide),
   (getMomentStartIndex_idempotent_getMoment_mono ⟨3, 0, 10⟩ 99 5 27 (by decide) (by decide)
      (by decide)).2 (by decide)⟩

/-- C10: both `getMoment` and `getMomentStartIndex` replace a falsy
index argument by the current wall-clock time, so supplying the epoch
timestamp `0` is indistinguishable from supplying no argument at all. -/
theorem getMoment_zero_index_same_as_absent (cfg : MomentCfg) (now : Int) :
    getMoment cfg now (some 0) = getMoment cfg now none
    ∧ getMomentStartIndex cfg now (some 0) = getMomentStartIndex cfg now none := by
  constructor <;> simp [getMoment, getMomentStartIndex, resolveIndex]

/-! ## Byte-buffer reads (Node `Buffer` accessors) -/

/-- Little-endian value of a byte list. -/
def leNat : List Nat → Nat
  | [] => 0
  | b :: bs => b + 256 * leNat bs

/-- Big-endian value of a byte list. -/
def beNat : List Nat → Nat
  | [] => 0
  | b :: bs => b * 256 ^ bs.length + beNat bs

/-- Node `buf.readUInt8(off)` — throws when the offset is out of range. -/
def readUInt8 (buf : List Nat) (off : Nat) : Except Unit Nat :=
  match buf.drop off with
  | [] => .error ()
  | b :: _ => .ok b

/-- Node `buf.readUInt16LE(off)` — throws when fewer than two bytes remain. -/
def readUInt16LE (buf : List Nat) (off : Nat) : Except Unit Nat :=
  if off + 2 ≤ buf.length then .ok (leNat ((buf.drop off).take 2)) else .error ()

/-- Node `buf.readUInt32BE()` — throws when fewer than four bytes remain. -/
def readUInt32BE (buf : List Nat) : Except Unit Nat :=
  if 4 ≤ buf.length then .ok (beNat (buf.take 4)) else .error ()

/-- Node `buf.readBigUInt64LE(off)` — throws when fewer than eight bytes
remain.  The moment values involved stay far below `2^53`, so the
`Number(bigint)` conversion in the source is exact and is dropped. -/
def readBigUInt64LE (buf : List Nat) (off : Nat) : Except Unit Nat :=
  if off + 8 ≤ buf.length then .ok (leNat ((buf.drop off).take 8)) else .error ()

/-! ## Reputation contract-info buffer (`getReputationContractInfoByAddress`) -/

/-- Constant `ReputationConstants.REP_INFO_PEER_PORT_OFFSET`. -/
def REP_INFO_PEER_PORT_OFFSET : Nat := 33

/-- Constant `ReputationConstants.REP_INFO_MOMENT_OFFSET`. -/
def REP_INFO_MOMENT_OFFSET : Nat := 35

/-- The decoded reputation contract info (the `domain` field fetched
from the ledger alongside it is external I/O and not part of the buffer
decode). -/
structure RepContractInfo where
  pubkey : JStr
  peerPort : Nat
deriving DecidableEq

/-- The buffer-decoding tail of
`BaseEvernodeClient.getReputationContractInfoByAddress`: reads the
instance moment (only when the buffer extends past the moment offset),
compares it against the queried moment `repMoment`, and on equality
returns the pubkey hex (bytes `[0,33)`) and the little-endian 16-bit
peer port at offset 33. -/
def decodeReputationContractInfo (repBuf : List Nat) (repMoment : Int) :
    Except Unit (Option RepContractInfo) := do
  let instanceMoment : Option Int ←
    if repBuf.length > REP_INFO_MOMENT_OFFSET then do
      let m ← readBigUInt64LE repBuf REP_INFO_MOMENT_OFFSET
      pure (some (m : Int))
    else
      pure none
  if instanceMoment = some repMoment then do
    let pp ← readUInt16LE repBuf REP_INFO_PEER_PORT_OFFSET
    pure (some ⟨hexOfBytesLower (repBuf.take REP_INFO_PEER_PORT_OFFSET), pp⟩)
  else
    pure none

/-- C8: a reputation contract-info buffer `pubkey(33) ‖ peerPort(2, LE)
‖ instanceMoment(8, LE)` decodes to the pubkey hex of its first 33
bytes and the little-endian peer port, exactly when the decoded
instance moment equals the queried moment; a buffer that does not
extend past the moment offset never has its moment read and yields no
result. -/
theorem decodeReputationContractInfo_layout (pk : List Nat) (p0 p1 : Nat) (im : List Nat)
    (m : Int) (hpk : pk.length = 33) (him : im.length = 8) :
    (decodeReputationContractInfo (pk ++ [p0, p1] ++ im) m
      = if (leNat im : Int) = m then .ok (some ⟨hexOfBytesLower pk, p0 + 256 * p1⟩)
        else .ok none)
    ∧ (∀ buf : List Nat, buf.length ≤ REP_INFO_MOMENT_OFFSET →
        decodeReputationContractInfo buf m = .ok none) := by
  constructor
  · have hassoc : pk ++ [p0, p1] ++ im = pk ++ ([p0, p1] ++ im) := List.append_assoc ..
    have hlen : (pk ++ [p0, p1] ++ im).length = 43 := by simp [hpk, him]
    have hdrop35 : (pk ++ [p0, p1] ++ im).drop 35 = im :=
      List.drop_left' (by simp [hpk])
    have hdrop33 : (pk ++ [p0, p1] ++ im).drop 33 = [p0, p1] ++ im := by
      rw [hassoc]; exact List.drop_left' hpk
    have htake33 : (pk ++ [p0, p1] ++ im).take 33 = pk := by
      rw [hassoc]; exact List.take_left' hpk
    have htakeim : im.take 8 = im := List.take_of_length_le (by omega)
    simp only [decodeReputationContractInfo, readBigUInt64LE, readUInt16LE,
      REP_INFO_MOMENT_OFFSET, REP_INFO_PEER_PORT_OFFSET, hlen, hdrop35, hdrop33, htake33]
    norm_num [htakeim, leNat, bind, Except.bind, pure, Except.pure]
  · intro buf hbuf
    have hshort : ¬ buf.length > REP_INFO_MOMENT_OFFSET := by omega
    simp [decodeReputationContractInfo, hshort, pure, Except.pure, bind, Except.bind]

/-- C8 witness: the 43-byte buffer
`0xAB…AB(33) ‖ 0x0100 ‖ 0x0500000000000000` queried at moment `5`
decodes to `peerPort = 1` with the pubkey hex of the 33 `0xAB` bytes,
and is rejected when queried at any other moment (here `6`). -/
theorem decodeReputationContractInfo_witness :
    decodeReputationContractInfo
        (List.replicate 33 171 ++ [1, 0] ++ ([5] ++ List.replicate 7 0)) 5
      = .ok (some ⟨hexOfBytesLower (List.replicate 33 171), 1⟩)
    ∧ decodeReputationContractInfo
        (List.replicate 33 171 ++ [1, 0] ++ ([5] ++ List.replicate 7 0)) 6
      = .ok none := by
  have h5 := (decodeReputationContractInfo_layout (List.replicate 33 171) 1 0
    ([5] ++ List.replicate 7 0) 5 (by decide) (by decide)).1
  have h6 := (decodeReputationContractInfo_layout (List.replicate 33 171) 1 0
    ([5] ++ List.replicate 7 0) 6 (by decide) (by decide)).1
  constructor
  · rw [h5]; norm_num [leNat]
  · rw [h6]; norm_num [leNat]

/-! ## Base64 (`Buffer.from(s, 'base64')` / `buf.toString('base64')`) -/

/-- Value of one base64 alphabet character. -/
def b64CharVal (c : Char) : Option Nat :=
  if 'A' ≤ c ∧ c ≤ 'Z' then some (c.toNat - 'A'.toNat)
  else if 'a' ≤ c ∧ c ≤ 'z' then some (c.toNat - 'a'.toNat + 26)
  else if '0' ≤ c ∧ c ≤ '9' then some (c.toNat - '0'.toNat + 52)
  else if c = '+' then some 62
  else if c = '/' then some 63
  else none

/-- Bytes of a sextet stream: groups of four sextets give three bytes,
a trailing pair gives one byte, a trailing triple gives two. -/
def b64DecodeSextets : List Nat → List Nat
  | a :: b :: c :: d :: rest =>
    (4 * a + b / 16) :: ((b % 16) * 16 + c / 4) :: ((c % 4) * 64 + d) :: b64DecodeSextets rest
  | [a, b] => [4 * a + b / 16]
  | [a, b, c] => [4 * a + b / 16, (b % 16) * 16 + c / 4]
  | _ => []

/-- Node `Buffer.from(s, 'base64')` (lenient: characters outside the alphabet,
including padding, are skipped). -/
def b64Decode (s : JStr) : List Nat := b64DecodeSextets (s.filterMap b64CharVal)

/-- Base64 alphabet character for a sextet. -/
def b64DigitChar (n : Nat) : Char :=
  if n < 26 then Char.ofNat ('A'.toNat + n)
  else if n < 52 then Char.ofNat ('a'.toNat + (n - 26))
  else if n < 62 then Char.ofNat ('0'.toNat + (n - 52))
  else if n = 62 then '+'
  else '/'

/-- Node `buf.toString('base64')` (canonical, padded). -/
def b64Encode : List Nat → JStr
  | b0 :: b1 :: b2 :: rest =>
    b64DigitChar (b0 / 4) :: b64DigitChar ((b0 % 4) * 16 + b1 / 16) ::
      b64DigitChar ((b1 % 16) * 4 + b2 / 64) :: b64DigitChar (b2 % 64) :: b64Encode rest
  | [b0] => [b64DigitChar (b0 / 4), b64DigitChar ((b0 % 4) * 16), '=', '=']
  | [b0, b1] =>
    [b64DigitChar (b0 / 4), b64DigitChar ((b0 % 4) * 16 + b1 / 16), b64DigitChar ((b1 % 16) * 4), '=']
  | [] => []

/-- Byte-wise character rendering of `buf.toString()` (the payloads the
classifier parses as JSON are ASCII). -/
def strOfBytes (bs : List Nat) : JStr := bs.map (fun b => Char.ofNat b)

/-! ## Classifier data model -/

/-- A JavaScript value as produced by `JSON.parse` or the decrypt
capability. -/
inductive JsVal where
  | str (s : JStr)
  | num (n : Int)
  | boolv (b : Bool)
  | jnull
  | obj (fields : List (JStr × JsVal))

/-- Property access `v.k`: on `null` it throws a TypeError (as
`JSON.parse("null").reason` does); on an object a missing property is
`undefined` (`none`); on a string/number/boolean primitive it is
`undefined` without throwing. -/
def JsVal.getField : JsVal → JStr → Except Unit (Option JsVal)
  | .jnull, _ => .error ()
  | .obj fields, k => .ok ((fields.find? (fun p => p.1 == k)).map (fun p => p.2))
  | _, _ => .ok none

/-- An event payload: either still a JavaScript string (the raw memo
data or the re-encoded, still-encrypted remainder) or a parsed /
decrypted object. -/
inductive PayloadV where
  | str (s : JStr)
  | val (j : JsVal)

/-- An error reason: the raw memo string, or (for `text/json` memos) the
`.reason` property of the parsed object, possibly `undefined`. -/
inductive ReasonV where
  | str (s : JStr)
  | field (v : Option JsVal)

/-- The classifier's environment: this client's account address and
message key, plus the external collaborators (`EncryptionHelper.decrypt`
and `JSON.parse`) as opaque capabilities. -/
structure ClsEnv where
  ourAddress : JStr
  messagePrivateKey : Option JStr
  decrypt : JStr → JStr → Option JsVal
  jsonParse : JStr → Option JsVal

/-- One deserialized memo triple. -/
structure Memo where
  type : JStr
  format : JStr
  data : JStr

/-- One deserialized hook parameter. -/
structure HookParam where
  name : JStr
  value : JStr

/-- An issued-currency amount object. -/
structure AmountV where
  currency : JStr
  value : JStr

/-- The `URITokenSellOffer` ledger object attached to a buy transaction. -/
structure URIOffer where
  index : JStr
  amount : Option AmountV

/-- A normalized transaction, with memo and hook-parameter lists already
deserialized.  Fields that may be absent in JavaScript are `Option`s. -/
structure Tx where
  TransactionType : JStr
  Account : JStr
  Destination : Option JStr
  Memos : List Memo
  HookParameters : List HookParam
  Amount : Option AmountV
  DeliveredAmount : Option AmountV
  Flags : Nat
  hash : JStr
  URITokenSellOffer : Option URIOffer

/-! ## Protocol constants (`evernode-common.js`) -/

/-- Constants `EventTypes.*` from `evernode-common.js`. -/
def ACQUIRE_LEASE : JStr := "evnAcquireLease".toList
def ACQUIRE_SUCCESS : JStr := "evnAcquireSuccess".toList
def ACQUIRE_ERROR : JStr := "evnAcquireError".toList
def HOST_REG : JStr := "evnHostReg".toList
def HOST_DEREG : JStr := "evnHostDereg".toList
def HOST_UPDATE_INFO : JStr := "evnHostUpdateReg".toList
def HEARTBEAT : JStr := "evnHeartbeat".toList
def HOST_TRANSFER : JStr := "evnTransfer".toList
def EXTEND_LEASE : JStr := "evnExtendLease".toList
def EXTEND_SUCCESS : JStr := "evnExtendSuccess".toList
def EXTEND_ERROR : JStr := "evnExtendError".toList
def TERMINATE_LEASE : JStr := "evnTerminateLease".toList
def INIT : JStr := "evnInitialize".toList
def DEAD_HOST_PRUNE : JStr := "evnDeadHostPrune".toList
def HOST_REBATE : JStr := "evnHostRebate".toList
def CANDIDATE_PROPOSE : JStr := "evnCandidatePropose".toList
def CANDIDATE_WITHDRAW : JStr := "evnCandidateWithdraw".toList
def CANDIDATE_VOTE : JStr := "evnCandidateVote".toList
def CANDIDATE_STATUS_CHANGE : JStr := "evnCandidateStatusChange".toList
def DUD_HOST_REPORT : JStr := "evnDudHostReport".toList
def HOOK_UPDATE_RES : JStr := "evnHookUpdateRes".toList
def GOVERNANCE_MODE_CHANGE : JStr := "evnGovernanceModeChange".toList
def LINKED_CANDIDATE_REMOVE : JStr := "evnRemoveLinkedCandidate".toList
def HOST_UPDATE_REPUTATION : JStr := "evnHostUpdateReputation".toList

/-- Constants `MemoFormats.*` from `evernode-common.js`. -/
def FORMAT_JSON : JStr := "text/json".toList
def FORMAT_BASE64 : JStr := "base64".toList
def FORMAT_HEX : JStr := "hex".toList

/-- Constants `HookParamKeys.*` from `evernode-common.js`. -/
def PARAM_EVENT_TYPE_KEY : JStr :=
  "4556520100000000000000000000000000000000000000000000000000000002".toList
def PARAM_EVENT_DATA_KEY : JStr :=
  "4556520100000000000000000000000000000000000000000000000000000003".toList

/-- Modelled from the spec: `XrplTransactionTypes.URI_TOKEN_BUY_OFFER`
comes from the `xrpl-common` module, which is not among the provided
sources; it is an opaque tag only ever compared for equality with the
transaction type field, so any fixed distinct value is faithful. -/
def URI_TOKEN_BUY_OFFER : JStr := "URITokenBuy".toList

/-- Constant `xrpl.PaymentFlags.tfPartialPayment`. -/
def tfPartialPayment : Nat := 131072

/-- Constant `EvernodeConstants.CandidateStatuses.CANDIDATE_ELECTED`. -/
def CANDIDATE_ELECTED : Nat := 2

/-- Constant `HOST_DEREG_FROM_REP_PARAM_SIZE`: size in **bytes** of the
reputation-initiated deregistration payload
`<host_address(20)><token_id(32)><error(1)>`. -/
def HOST_DEREG_FROM_REP_PARAM_SIZE : Nat := 53

/-- Constant `DUD_HOST_CANDID_ADDRESS_OFFSET`. -/
def DUD_HOST_CANDID_ADDRESS_OFFSET : Nat := 12

/-- Constant `REPUTATION_HOST_ADDRESS_PARAM_OFFSET`. -/
def REPUTATION_HOST_ADDRESS_PARAM_OFFSET : Nat := 0

/-- Constant `REPUTATION_VALUE_PARAM_OFFSET`. -/
def REPUTATION_VALUE_PARAM_OFFSET : Nat := 20

/-- Constants `CANDIDATE_PROPOSE_*` (offsets and sizes) from the source. -/
def CANDIDATE_PROPOSE_HASHES_PARAM_OFFSET : Nat := 0
def CANDIDATE_PROPOSE_KEYLETS_PARAM_OFFSET : Nat := 128
def CANDIDATE_PROPOSE_UNIQUE_ID_PARAM_OFFSET : Nat := 264
def CANDIDATE_PROPOSE_SHORT_NAME_PARAM_OFFSET : Nat := 296
def CANDIDATE_PROPOSE_PARAM_SIZE : Nat := 316

/-- Constant `MAX_HOOK_PARAM_SIZE`. -/
def MAX_HOOK_PARAM_SIZE : Nat := 256

/-! ## External account codec and candidate identity -/

/-- Executable stand-in for `ripple-address-codec`'s `encodeAccountID`
(raw 20-byte account id → address string): it throws unless its input is
exactly 20 bytes, as the real base58-check encoder does, and otherwise
renders an injective address string (the base58 alphabet itself is
irrelevant to every claim). -/
def encodeAccountID (bs : List Nat) : Except Unit JStr :=
  if bs.length = 20 then .ok ('r' :: hexOfBytesLower bs) else .error ()

/-- Enumeration `EvernodeConstants.CandidateTypes`. -/
inductive CandidateType where
  | NewHook
  | PilotedMode
  | DudHost
deriving DecidableEq

/-- Modelled from the spec: the fixed discriminant pattern occupying the
12 bytes before the account id embedded at offset 12 of a DudHost
candidate id.  `StateHelpers` is not among the provided sources; the
spec fixes the structure (a fixed pattern outside the embedded address)
but not the byte values, which are taken here as the
`CandidateTypes.DudHost` tag in the final byte. -/
def DUD_HOST_CANDID_DISCRIMINANT : List Nat := List.replicate 11 0 ++ [3]

/-- Modelled from the spec: the single reserved PilotedMode candidate id. -/
def PILOTED_MODE_CANDIDATE_ID : List Nat :=
  List.replicate 11 0 ++ [2] ++ List.replicate 20 0

/-- Modelled from the spec: `StateHelpers.getCandidateType` classifies a
32-byte candidate id purely from its byte pattern — DudHost ids carry
the embedded-address pattern at offset 12, the PilotedMode id is the one
reserved constant, and every other id is NewHook. -/
def getCandidateType (candidateId : JStr) : CandidateType :=
  let bs := hexToBytes candidateId
  if bs.length = 32 ∧ bs.take DUD_HOST_CANDID_ADDRESS_OFFSET = DUD_HOST_CANDID_DISCRIMINANT then
    .DudHost
  else if bs = PILOTED_MODE_CANDIDATE_ID then
    .PilotedMode
  else
    .NewHook

/-! ## The event classifier (`BaseEvernodeClient.extractEvernodeEvent`) -/

/-- The typed domain events the classifier can produce.  Every event in
the source also carries the originating transaction; that field is the
classifier's own input and is omitted from the model. -/
inductive Event where
  | AcquireLease (host : Option JStr) (uriTokenId : Option JStr) (leaseAmount : Option JStr)
      (acquireRefId : JStr) (tenant : JStr) (payload : PayloadV)
  | AcquireSuccess (acquireRefId : JStr) (payload : PayloadV)
  | AcquireError (acquireRefId : JStr) (reason : ReasonV)
  | HostRegistered (host : JStr)
  | HostDeregistered (host : JStr)
  | Heartbeat (host : JStr) (voteInfo : Option (JStr × Nat))
  | ExtendLease (extendRefId : JStr) (tenant : JStr) (currency : JStr) (payment : JStr)
      (uriTokenId : JStr)
  | TerminateLease (terminateRefId : JStr) (tenant : JStr) (uriTokenId : JStr)
  | ExtendSuccess (extendRefId : JStr) (expiryMoment : Nat)
  | ExtendError (extendRefId : JStr) (reason : ReasonV)
  | Initialized
  | HostRegUpdated (host : JStr)
  | DeadHostPrune (host : JStr)
  | HostRebate (host : JStr)
  | HostTransfer (transferee : JStr)
  | CandidateProposed (owner : JStr) (candidateId : JStr)
  | CandidateWithdrawn (owner : JStr) (candidateId : JStr)
  | DudHostRemoved (candidateId : JStr) (host : JStr)
  | DudHostStatusChanged (candidateId : JStr) (host : JStr)
  | FallbackToPiloted (candidateId : JStr)
  | NewHookStatusChanged (candidateId : JStr)
  | LinkedDudHostCandidateRemoved (candidateId : JStr) (host : JStr)
  | ChildHookUpdated (account : JStr) (candidateId : JStr)
  | GovernanceModeChanged (mode : Nat)
  | FoundationVoted (candidateId : JStr) (vote : Nat)
  | DudHostReported (candidateId : JStr) (host : JStr)
  | HostReputationUpdated (host : JStr) (reputation : Nat)

/-- Variable `eventType`: the `PARAM_EVENT_TYPE_KEY` hook-parameter value, looked
up only when the parameter list is non-empty. -/
def eventTypeOf (tx : Tx) : Option JStr :=
  match tx.HookParameters with
  | [] => none
  | ps => (ps.find? (fun p => p.name == PARAM_EVENT_TYPE_KEY)).map (fun p => p.value)

/-- Variable `eventData`: the `PARAM_EVENT_DATA_KEY` hook-parameter value
(`?? ''`), empty when the parameter list is empty. -/
def eventDataOf (tx : Tx) : JStr :=
  match tx.HookParameters with
  | [] => []
  | ps => ((ps.find? (fun p => p.name == PARAM_EVENT_DATA_KEY)).map (fun p => p.value)).getD []

/-- Accessor for `tx.Memos[0]` (fields read as `undefined`-like empties when the memo
list is empty; every use is behind a length guard). -/
def memo0 (tx : Tx) : Memo := tx.Memos.headD ⟨[], [], []⟩

/-! ### Dispatch guards, in source order -/

def gAcquireLease (tx : Tx) : Bool :=
  tx.TransactionType == URI_TOKEN_BUY_OFFER && eventTypeOf tx == some ACQUIRE_LEASE &&
    !tx.Memos.isEmpty && (memo0 tx).type == ACQUIRE_LEASE &&
    (memo0 tx).format == FORMAT_BASE64 && !(memo0 tx).data.isEmpty

def gAcquireSuccess (tx : Tx) : Bool :=
  eventTypeOf tx == some ACQUIRE_SUCCESS && !(eventDataOf tx).isEmpty && !tx.Memos.isEmpty &&
    (memo0 tx).type == ACQUIRE_SUCCESS && !(memo0 tx).data.isEmpty

def gAcquireError (tx : Tx) : Bool :=
  eventTypeOf tx == some ACQUIRE_ERROR && !(eventDataOf tx).isEmpty && !tx.Memos.isEmpty &&
    (memo0 tx).type == ACQUIRE_ERROR && !(memo0 tx).data.isEmpty

def gHostReg (tx : Tx) : Bool :=
  eventTypeOf tx == some HOST_REG && !(eventDataOf tx).isEmpty

def gHostDereg (tx : Tx) : Bool :=
  eventTypeOf tx == some HOST_DEREG && !(eventDataOf tx).isEmpty

def gHeartbeat (tx : Tx) : Bool :=
  eventTypeOf tx == some HEARTBEAT

def gExtendLease (tx : Tx) : Bool :=
  eventTypeOf tx == some EXTEND_LEASE && !(eventDataOf tx).isEmpty

def gTerminateLease (tx : Tx) : Bool :=
  eventTypeOf tx == some TERMINATE_LEASE && !(eventDataOf tx).isEmpty

def gExtendSuccess (tx : Tx) : Bool :=
  eventTypeOf tx == some EXTEND_SUCCESS && !(eventDataOf tx).isEmpty && !tx.Memos.isEmpty &&
    (memo0 tx).type == EXTEND_SUCCESS && (memo0 tx).format == FORMAT_HEX &&
    !(memo0 tx).data.isEmpty

def gExtendError (tx : Tx) : Bool :=
  eventTypeOf tx == some EXTEND_ERROR && !(eventDataOf tx).isEmpty && !tx.Memos.isEmpty &&
    (memo0 tx).type == EXTEND_ERROR && !(memo0 tx).data.isEmpty

def gInit (tx : Tx) : Bool :=
  eventTypeOf tx == some INIT && !(eventDataOf tx).isEmpty

def gHostUpdateInfo (tx : Tx) : Bool :=
  eventTypeOf tx == some HOST_UPDATE_INFO && !(eventDataOf tx).isEmpty

def gDeadHostPrune (tx : Tx) : Bool :=
  eventTypeOf tx == some DEAD_HOST_PRUNE && !(eventDataOf tx).isEmpty

def gHostRebate (tx : Tx) : Bool :=
  eventTypeOf tx == some HOST_REBATE

def gHostTransfer (tx : Tx) : Bool :=
  eventTypeOf tx == some HOST_TRANSFER && !(eventDataOf tx).isEmpty

def gCandidatePropose (tx : Tx) : Bool :=
  eventTypeOf tx == some CANDIDATE_PROPOSE && !(eventDataOf tx).isEmpty

def gCandidateWithdraw (tx : Tx) : Bool :=
  eventTypeOf tx == some CANDIDATE_WITHDRAW && !(eventDataOf tx).isEmpty

def gCandidateStatusChange (tx : Tx) : Bool :=
  eventTypeOf tx == some CANDIDATE_STATUS_CHANGE && !(eventDataOf tx).isEmpty

def gLinkedCandidateRemove (tx : Tx) : Bool :=
  eventTypeOf tx == some LINKED_CANDIDATE_REMOVE && !(eventDataOf tx).isEmpty

def gHookUpdateRes (tx : Tx) : Bool :=
  eventTypeOf tx == some HOOK_UPDATE_RES && !(eventDataOf tx).isEmpty

def gGovernanceModeChange (tx : Tx) : Bool :=
  eventTypeOf tx == some GOVERNANCE_MODE_CHANGE && !(eventDataOf tx).isEmpty

def gCandidateVote (tx : Tx) : Bool :=
  eventTypeOf tx == some CANDIDATE_VOTE && !(eventDataOf tx).isEmpty

def gDudHostReport (tx : Tx) : Bool :=
  eventTypeOf tx == some DUD_HOST_REPORT && !(eventDataOf tx).isEmpty

def gHostUpdateReputation (tx : Tx) : Bool :=
  eventTypeOf tx == some HOST_UPDATE_REPUTATION && !(eventDataOf tx).isEmpty

/-- The dispatch predicates in their source (if/else-if) order. -/
def dispatchGuards : List (Tx → Bool) :=
  [gAcquireLease, gAcquireSuccess, gAcquireError, gHostReg, gHostDereg, gHeartbeat,
   gExtendLease, gTerminateLease, gExtendSuccess, gExtendError, gInit, gHostUpdateInfo,
   gDeadHostPrune, gHostRebate, gHostTransfer, gCandidatePropose, gCandidateWithdraw,
   gCandidateStatusChange, gLinkedCandidateRemove, gHookUpdateRes, gGovernanceModeChange,
   gCandidateVote, gDudHostReport, gHostUpdateReputation]

/-! ### Branch bodies, in source order

`parseFloat` on the payment amounts never throws and its float result is
kept as the raw amount string; everything else follows the source
line by line. -/

/-- The payload block shared verbatim by the `ACQUIRE_LEASE` and
`ACQUIRE_SUCCESS` branches: read the one-byte format flag (throws on an
empty buffer); flag `1` means the remainder is encrypted — re-encode it
and try the decrypt capability, keeping the re-encoded remainder when
decryption yields nothing; any other flag means the remainder is JSON
(throwing when it does not parse). -/
def decryptStep (env : ClsEnv) (dataStr : JStr) : Except Unit PayloadV :=
  match b64Decode dataStr with
  | [] => .error ()
  | flag :: rest =>
    if flag = 1 then
      let stripped := b64Encode rest
      match env.messagePrivateKey.bind (fun k => env.decrypt k stripped) with
      | some d => .ok (.val d)
      | none => .ok (.str stripped)
    else
      match env.jsonParse (strOfBytes rest) with
      | some j => .ok (.val j)
      | none => .error ()

def branchAcquireLease (env : ClsEnv) (tx : Tx) : Except Unit (Option Event) := do
  let payload ←
    if (memo0 tx).format == FORMAT_BASE64 && tx.Destination == some env.ourAddress then
      decryptStep env (memo0 tx).data
    else
      pure (.str (memo0 tx).data)
  pure (some (.AcquireLease tx.Destination ((tx.URITokenSellOffer).map (fun o => o.index))
    ((tx.URITokenSellOffer.bind (fun o => o.amount)).map (fun a => a.value))
    tx.hash tx.Account payload))

def branchAcquireSuccess (env : ClsEnv) (tx : Tx) : Except Unit (Option Event) := do
  let payload ←
    if (memo0 tx).format == FORMAT_BASE64 && tx.Destination == some env.ourAddress then
      decryptStep env (memo0 tx).data
    else
      pure (.str (memo0 tx).data)
  pure (some (.AcquireSuccess (eventDataOf tx) payload))

/-- Key `"reason"`, the property read off parsed error payloads. -/
def REASON_KEY : JStr := "reason".toList

/-- Source line `if (memo.format === MemoFormats.JSON) error = JSON.parse(error).reason`:
the parse may throw, and so may the `.reason` access when the parse
result is `null`. -/
def parseReason (env : ClsEnv) (m : Memo) : Except Unit ReasonV :=
  if m.format == FORMAT_JSON then
    match env.jsonParse m.data with
    | some j =>
      match j.getField REASON_KEY with
      | .ok r => .ok (.field r)
      | .error e => .error e
    | none => .error ()
  else
    .ok (.str m.data)

def branchAcquireError (env : ClsEnv) (tx : Tx) : Except Unit (Option Event) := do
  let r ← parseReason env (memo0 tx)
  pure (some (.AcquireError (eventDataOf tx) r))

def branchHostReg (tx : Tx) : Except Unit (Option Event) :=
  .ok (some (.HostRegistered tx.Account))

def branchHostDereg (tx : Tx) : Except Unit (Option Event) :=
  if (eventDataOf tx).length = HOST_DEREG_FROM_REP_PARAM_SIZE then do
    let h ← encodeAccountID ((hexToBytes (eventDataOf tx)).take 20)
    pure (some (.HostDeregistered h))
  else
    .ok (some (.HostDeregistered tx.Account))

def branchHeartbeat (tx : Tx) : Except Unit (Option Event) := do
  let ed := eventDataOf tx
  let voteInfo ←
    if !ed.isEmpty then do
      let v ← readUInt8 (((hexToBytes ed).drop 32).take 1) 0
      pure (some (ed.take 64, v))
    else
      pure none
  pure (some (.Heartbeat tx.Account voteInfo))

def branchExtendLease (tx : Tx) : Except Unit (Option Event) := do
  let amount ← match tx.Amount with
    | some a => pure a
    | none => .error ()
  let payment ←
    if (tx.Flags &&& tfPartialPayment) != 0 then
      match tx.DeliveredAmount with
      | some d => pure d.value
      | none => .error ()
    else
      pure amount.value
  pure (some (.ExtendLease tx.hash tx.Account amount.currency payment (eventDataOf tx)))

def branchTerminateLease (tx : Tx) : Except Unit (Option Event) :=
  .ok (some (.TerminateLease tx.hash tx.Account (eventDataOf tx)))

def branchExtendSuccess (tx : Tx) : Except Unit (Option Event) := do
  let em ← readUInt32BE (hexToBytes (memo0 tx).data)
  pure (some (.ExtendSuccess (eventDataOf tx) em))

def branchExtendError (env : ClsEnv) (tx : Tx) : Except Unit (Option Event) := do
  let r ← parseReason env (memo0 tx)
  pure (some (.ExtendError (eventDataOf tx) r))

def branchInit : Except Unit (Option Event) :=
  .ok (some .Initialized)

def branchHostUpdateInfo (tx : Tx) : Except Unit (Option Event) :=
  .ok (some (.HostRegUpdated tx.Account))

def branchDeadHostPrune (tx : Tx) : Except Unit (Option Event) := do
  let h ← encodeAccountID (hexToBytes (eventDataOf tx))
  pure (some (.DeadHostPrune h))

def branchHostRebate (tx : Tx) : Except Unit (Option Event) :=
  .ok (some (.HostRebate tx.Account))

def branchHostTransfer (tx : Tx) : Except Unit (Option Event) := do
  let h ← encodeAccountID (hexToBytes (eventDataOf tx))
  pure (some (.HostTransfer h))

def branchCandidatePropose (tx : Tx) : Except Unit (Option Event) :=
  .ok (some (.CandidateProposed tx.Account
    (((eventDataOf tx).drop (CANDIDATE_PROPOSE_UNIQUE_ID_PARAM_OFFSET * 2)).take 64)))

def branchCandidateWithdraw (tx : Tx) : Except Unit (Option Event) :=
  .ok (some (.CandidateWithdrawn tx.Account ((eventDataOf tx).take 64)))

def branchCandidateStatusChange (tx : Tx) : Except Unit (Option Event) := do
  let eventDataBuf := hexToBytes (eventDataOf tx)
  let candidateId := hexOfBytesLower (eventDataBuf.take 32)
  match getCandidateType candidateId with
  | .DudHost => do
    let status ← readUInt8 eventDataBuf 32
    let host ← encodeAccountID
      (((hexToBytes candidateId).drop DUD_HOST_CANDID_ADDRESS_OFFSET).take 20)
    pure (some (if status = CANDIDATE_ELECTED then .DudHostRemoved candidateId host
      else .DudHostStatusChanged candidateId host))
  | .PilotedMode => pure (some (.FallbackToPiloted candidateId))
  | .NewHook => pure (some (.NewHookStatusChanged candidateId))

def branchLinkedCandidateRemove (tx : Tx) : Except Unit (Option Event) := do
  let eventDataBuf := hexToBytes (eventDataOf tx)
  let candidateId := hexOfBytesLower (eventDataBuf.take 32)
  if getCandidateType candidateId = .DudHost then do
    let host ← encodeAccountID
      (((hexToBytes candidateId).drop DUD_HOST_CANDID_ADDRESS_OFFSET).take 20)
    pure (some (.LinkedDudHostCandidateRemoved candidateId host))
  else
    pure none

def branchHookUpdateRes (tx : Tx) : Except Unit (Option Event) :=
  .ok (some (.ChildHookUpdated tx.Account ((eventDataOf tx).take 64)))

def branchGovernanceModeChange (tx : Tx) : Except Unit (Option Event) := do
  let mode ← readUInt8 ((hexToBytes (eventDataOf tx)).take 1) 0
  pure (some (.GovernanceModeChanged mode))

def branchCandidateVote (tx : Tx) : Except Unit (Option Event) := do
  let vote ← readUInt8 (((hexToBytes (eventDataOf tx)).drop 32).take 1) 0
  pure (some (.FoundationVoted ((eventDataOf tx).take 64) vote))

def branchDudHostReport (tx : Tx) : Except Unit (Option Event) := do
  let candidateId := (eventDataOf tx).take 64
  let host ← encodeAccountID
    (((hexToBytes candidateId).drop DUD_HOST_CANDID_ADDRESS_OFFSET).take 20)
  pure (some (.DudHostReported candidateId host))

def branchHostUpdateReputation (tx : Tx) : Except Unit (Option Event) := do
  let dataBuf := hexToBytes (eventDataOf tx)
  let host ← encodeAccountID ((dataBuf.drop REPUTATION_HOST_ADDRESS_PARAM_OFFSET).take 20)
  let rep ← readUInt8 dataBuf REPUTATION_VALUE_PARAM_OFFSET
  pure (some (.HostReputationUpdated host rep))

/-- Function `BaseEvernodeClient.extractEvernodeEvent` (current protocol
generation): a strict first-match if/else-if chain over the dispatch
guards; no guard matching yields `null` and every JavaScript exception
is `Except.error`. -/
def extractEvernodeEvent (env : ClsEnv) (tx : Tx) : Except Unit (Option Event) :=
  if gAcquireLease tx then branchAcquireLease env tx
  else if gAcquireSuccess tx then branchAcquireSuccess env tx
  else if gAcquireError tx then branchAcquireError env tx
  else if gHostReg tx then branchHostReg tx
  else if gHostDereg tx then branchHostDereg tx
  else if gHeartbeat tx then branchHeartbeat tx
  else if gExtendLease tx then branchExtendLease tx
  else if gTerminateLease tx then branchTerminateLease tx
  else if gExtendSuccess tx then branchExtendSuccess tx
  else if gExtendError tx then branchExtendError env tx
  else if gInit tx then branchInit
  else if gHostUpdateInfo tx then branchHostUpdateInfo tx
  else if gDeadHostPrune tx then branchDeadHostPrune tx
  else if gHostRebate tx then branchHostRebate tx
  else if gHostTransfer tx then branchHostTransfer tx
  else if gCandidatePropose tx then branchCandidatePropose tx
  else if gCandidateWithdraw tx then branchCandidateWithdraw tx
  else if gCandidateStatusChange tx then branchCandidateStatusChange tx
  else if gLinkedCandidateRemove tx then branchLinkedCandidateRemove tx
  else if gHookUpdateRes tx then branchHookUpdateRes tx
  else if gGovernanceModeChange tx then branchGovernanceModeChange tx
  else if gCandidateVote tx then branchCandidateVote tx
  else if gDudHostReport tx then branchDudHostReport tx
  else if gHostUpdateReputation tx then branchHostUpdateReputation tx
  else .ok none

/-! ## Hex-codec lemmas -/

theorem hexVal_lt {c : Char} {h : Nat} (hv : hexVal c = some h) : h < 16 := by
  simp only [hexVal] at hv
  split at hv <;> [skip; split at hv] <;> [skip; skip; split at hv] <;> simp_all <;> omega

theorem hexVal_hexDigitLower {n : Nat} (h : n < 16) : hexVal (hexDigitLower n) = some n := by
  revert h
  revert n
  decide

theorem hexToBytes_lt : ∀ (s : JStr), ∀ b ∈ hexToBytes s, b < 256
  | [] => by simp [hexToBytes]
  | [_] => by simp [hexToBytes]
  | c1 :: c2 :: rest => by
    intro b hb
    rw [hexToBytes] at hb
    rcases h1 : hexVal c1 with - | v1 <;> rcases h2 : hexVal c2 with - | v2 <;>
      simp [h1, h2] at hb
    · rcases hb with hb | hb
      · have hv1 := hexVal_lt h1
        have hv2 := hexVal_lt h2
        omega
      · exact hexToBytes_lt rest b hb

theorem hexToBytes_hexOfBytesLower : ∀ (l : List Nat), (∀ b ∈ l, b < 256) →
    hexToBytes (hexOfBytesLower l) = l
  | [], _ => rfl
  | b :: bs, h => by
    have hb : b < 256 := h b (by simp)
    have ih := hexToBytes_hexOfBytesLower bs (fun x hx => h x (by simp [hx]))
    have h1 : hexVal (hexDigitLower (b / 16 % 16)) = some (b / 16 % 16) :=
      hexVal_hexDigitLower (Nat.mod_lt _ (by omega))
    have h2 : hexVal (hexDigitLower (b % 16)) = some (b % 16) :=
      hexVal_hexDigitLower (Nat.mod_lt _ (by omega))
    have hhi : b / 16 % 16 = b / 16 := Nat.mod_eq_of_lt (by omega)
    simp only [hexOfBytesLower, hexToBytes, h1, h2, ih]
    rw [hhi, Nat.div_add_mod b 16]

theorem hexOfBytesUpper_append (a b : List Nat) :
    hexOfBytesUpper (a ++ b) = hexOfBytesUpper a ++ hexOfBytesUpper b := by
  induction a with
  | nil => rfl
  | cons x xs ih => simp [hexOfBytesUpper, ih]

theorem hexOfBytesUpper_length (l : List Nat) :
    (hexOfBytesUpper l).length = 2 * l.length := by
  induction l with
  | nil => rfl
  | cons x xs ih => simp [hexOfBytesUpper, ih]; omega

theorem hexOfBytesUpper_drop {l : List Nat} {n : Nat} (h : n ≤ l.length) :
    (hexOfBytesUpper l).drop (2 * n) = hexOfBytesUpper (l.drop n) := by
  conv_lhs => rw [← List.take_append_drop n l]
  rw [hexOfBytesUpper_append,
    List.drop_left' (by rw [hexOfBytesUpper_length, List.length_take]; omega)]

theorem hexOfBytesUpper_take {l : List Nat} {n : Nat} (h : n ≤ l.length) :
    (hexOfBytesUpper l).take (2 * n) = hexOfBytesUpper (l.take n) := by
  conv_lhs => rw [← List.take_append_drop n l]
  rw [hexOfBytesUpper_append,
    List.take_left' (by rw [hexOfBytesUpper_length, List.length_take]; omega)]

/-! ## Dispatch-guard analysis

Every guard in the chain pins the transaction's `eventType` to a
distinct constant (the first branch additionally requires the
`URITokenBuy` transaction type), which is what makes the predicates
mutually exclusive by construction rather than by chain order. -/

/-- The `eventType` constant each dispatch guard requires, in guard order. -/
def guardTags : List JStr :=
  [ACQUIRE_LEASE, ACQUIRE_SUCCESS, ACQUIRE_ERROR, HOST_REG, HOST_DEREG, HEARTBEAT,
   EXTEND_LEASE, TERMINATE_LEASE, EXTEND_SUCCESS, EXTEND_ERROR, INIT, HOST_UPDATE_INFO,
   DEAD_HOST_PRUNE, HOST_REBATE, HOST_TRANSFER, CANDIDATE_PROPOSE, CANDIDATE_WITHDRAW,
   CANDIDATE_STATUS_CHANGE, LINKED_CANDIDATE_REMOVE, HOOK_UPDATE_RES, GOVERNANCE_MODE_CHANGE,
   CANDIDATE_VOTE, DUD_HOST_REPORT, HOST_UPDATE_REPUTATION]

theorem gAcquireLease_tag {tx : Tx} (h : gAcquireLease tx = true) :
    eventTypeOf tx = some ACQUIRE_LEASE := by
  simp only [gAcquireLease, Bool.and_eq_true, beq_iff_eq] at h
  exact h.1.1.1.1.2

theorem gAcquireSuccess_tag {tx : Tx} (h : gAcquireSuccess tx = true) :
    eventTypeOf tx = some ACQUIRE_SUCCESS := by
  simp only [gAcquireSuccess, Bool.and_eq_true, beq_iff_eq] at h
  exact h.1.1.1.1

theorem gAcquireError_tag {tx : Tx} (h : gAcquireError tx = true) :
    eventTypeOf tx = some ACQUIRE_ERROR := by
  simp only [gAcquireError, Bool.and_eq_true, beq_iff_eq] at h
  exact h.1.1.1.1

theorem gHostReg_tag {tx : Tx} (h : gHostReg tx = true) :
    eventTypeOf tx = some HOST_REG := by
  simp only [gHostReg, Bool.and_eq_true, beq_iff_eq] at h
  exact h.1

theorem gHostDereg_tag {tx : Tx} (h : gHostDereg tx = true) :
    eventTypeOf tx = some HOST_DEREG := by
  simp only [gHostDereg, Bool.and_eq_true, beq_iff_eq] at h
  exact h.1

theorem gHeartbeat_tag {tx : Tx} (h : gHeartbeat tx = true) :
    eventTypeOf tx = some HEARTBEAT := by
  simp only [gHeartbeat, beq_iff_eq] at h
  exact h

theorem gExtendLease_tag {tx : Tx} (h : gExtendLease tx = true) :
    eventTypeOf tx = some EXTEND_LEASE := by
  simp only [gExtendLease, Bool.and_eq_true, beq_iff_eq] at h
  exact h.1

theorem gTerminateLease_tag {tx : Tx} (h : gTerminateLease tx = true) :
    eventTypeOf tx = some TERMINATE_LEASE := by
  simp only [gTerminateLease, Bool.and_eq_true, beq_iff_eq] at h
  exact h.1

theorem gExtendSuccess_tag {tx : Tx} (h : gExtendSuccess tx = true) :
    eventTypeOf tx = some EXTEND_SUCCESS := by
  simp only [gExtendSuccess, Bool.and_eq_true, beq_iff_eq] at h
  exact h.1.1.1.1.1

theorem gExtendError_tag {tx : Tx} (h : gExtendError tx = true) :
    eventTypeOf tx = some EXTEND_ERROR := by
  simp only [gExtendError, Bool.and_eq_true, beq_iff_eq] at h
  exact h.1.1.1.1

theorem gInit_tag {tx : Tx} (h : gInit tx = true) :
    eventTypeOf tx = some INIT := by
  simp only [gInit, Bool.and_eq_true, beq_iff_eq] at h
  exact h.1

theorem gHostUpdateInfo_tag {tx : Tx} (h : gHostUpdateInfo tx = true) :
    eventTypeOf tx = some HOST_UPDATE_INFO := by
  simp only [gHostUpdateInfo, Bool.and_eq_true, beq_iff_eq] at h
  exact h.1

theorem gDeadHostPrune_tag {tx : Tx} (h : gDeadHostPrune tx = true) :
    eventTypeOf tx = some DEAD_HOST_PRUNE := by
  simp only [gDeadHostPrune, Bool.and_eq_true, beq_iff_eq] at h
  exact h.1

theorem gHostRebate_tag {tx : Tx} (h : gHostRebate tx = true) :
    eventTypeOf tx = some HOST_REBATE := by
  simp only [gHostRebate, beq_iff_eq] at h
  exact h

theorem gHostTransfer_tag {tx : Tx} (h : gHostTransfer tx = true) :
    eventTypeOf tx = some HOST_TRANSFER := by
  simp only [gHostTransfer, Bool.and_eq_true, beq_iff_eq] at h
  exact h.1

theorem gCandidatePropose_tag {tx : Tx} (h : gCandidatePropose tx = true) :
    eventTypeOf tx = some CANDIDATE_PROPOSE := by
  simp only [gCandidatePropose, Bool.and_eq_true, beq_iff_eq] at h
  exact h.1

theorem gCandidateWithdraw_tag {tx : Tx} (h : gCandidateWithdraw tx = true) :
    eventTypeOf tx = some CANDIDATE_WITHDRAW := by
  simp only [gCandidateWithdraw, Bool.and_eq_true, beq_iff_eq] at h
  exact h.1

theorem gCandidateStatusChange_tag {tx : Tx} (h : gCandidateStatusChange tx = true) :
    eventTypeOf tx = some CANDIDATE_STATUS_CHANGE := by
  simp only [gCandidateStatusChange, Bool.and_eq_true, beq_iff_eq] at h
  exact h.1

theorem gLinkedCandidateRemove_tag {tx : Tx} (h : gLinkedCandidateRemove tx = true) :
    eventTypeOf tx = some LINKED_CANDIDATE_REMOVE := by
  simp only [gLinkedCandidateRemove, Bool.and_eq_true, beq_iff_eq] at h
  exact h.1

theorem gHookUpdateRes_tag {tx : Tx} (h : gHookUpdateRes tx = true) :
    eventTypeOf tx = some HOOK_UPDATE_RES := by
  simp only [gHookUpdateRes, Bool.and_eq_true, beq_iff_eq] at h
  exact h.1

theorem gGovernanceModeChange_tag {tx : Tx} (h : gGovernanceModeChange tx = true) :
    eventTypeOf tx = some GOVERNANCE_MODE_CHANGE := by
  simp only [gGovernanceModeChange, Bool.and_eq_true, beq_iff_eq] at h
  exact h.1

theorem gCandidateVote_tag {tx : Tx} (h : gCandidateVote tx = true) :
    eventTypeOf tx = some CANDIDATE_VOTE := by
  simp only [gCandidateVote, Bool.and_eq_true, beq_iff_eq] at h
  exact h.1

theorem gDudHostReport_tag {tx : Tx} (h : gDudHostReport tx = true) :
    eventTypeOf tx = some DUD_HOST_REPORT := by
  simp only [gDudHostReport, Bool.and_eq_true, beq_iff_eq] at h
  exact h.1

theorem gHostUpdateReputation_tag {tx : Tx} (h : gHostUpdateReputation tx = true) :
    eventTypeOf tx = some HOST_UPDATE_REPUTATION := by
  simp only [gHostUpdateReputation, Bool.and_eq_true, beq_iff_eq] at h
  exact h.1

/-- Each dispatch guard forces the `eventType` constant at its position
of `guardTags`. -/
theorem dispatchGuards_tag (i : Fin dispatchGuards.length) (tx : Tx)
    (h : (dispatchGuards.get i) tx = true) :
    eventTypeOf tx = some (guardTags.get ⟨i.val, i.isLt⟩) := by
  fin_cases i
  · exact gAcquireLease_tag h
  · exact gAcquireSuccess_tag h
  · exact gAcquireError_tag h
  · exact gHostReg_tag h
  · exact gHostDereg_tag h
  · exact gHeartbeat_tag h
  · exact gExtendLease_tag h
  · exact gTerminateLease_tag h
  · exact gExtendSuccess_tag h
  · exact gExtendError_tag h
  · exact gInit_tag h
  · exact gHostUpdateInfo_tag h
  · exact gDeadHostPrune_tag h
  · exact gHostRebate_tag h
  · exact gHostTransfer_tag h
  · exact gCandidatePropose_tag h
  · exact gCandidateWithdraw_tag h
  · exact gCandidateStatusChange_tag h
  · exact gLinkedCandidateRemove_tag h
  · exact gHookUpdateRes_tag h
  · exact gGovernanceModeChange_tag h
  · exact gCandidateVote_tag h
  · exact gDudHostReport_tag h
  · exact gHostUpdateReputation_tag h

/-- The 24 required `eventType` constants are pairwise distinct. -/
theorem guardTags_nodup : guardTags.Nodup := by decide

/-- A guard cannot hold when the transaction's `eventType` is pinned to
a different constant. -/
theorem guard_false_of_tag {g : Tx → Bool} {c : JStr}
    (hg : ∀ tx, g tx = true → eventTypeOf tx = some c) {tx : Tx} {E : JStr}
    (h : eventTypeOf tx = some E) (hne : E ≠ c) : g tx = false := by
  cases hgx : g tx
  · rfl
  · exact absurd (Option.some.inj ((hg tx hgx).symm.trans h)).symm hne

/-- The dispatch predicates are pairwise mutually exclusive: no
transaction satisfies two of them. -/
theorem dispatchGuards_pairwise_exclusive :
    dispatchGuards.Pairwise (fun g g' => ∀ t : Tx, ¬(g t = true ∧ g' t = true)) := by
  rw [List.pairwise_iff_get]
  intro i j hij t hc
  have hti := dispatchGuards_tag i t hc.1
  have htj := dispatchGuards_tag j t hc.2
  have heq : guardTags.get ⟨i.val, i.isLt⟩ = guardTags.get ⟨j.val, j.isLt⟩ :=
    Option.some.inj (hti.symm.trans htj)
  have hfin := List.nodup_iff_injective_get.mp guardTags_nodup heq
  have hv : i.val = j.val := congrArg Fin.val hfin
  have hlt : i.val < j.val := hij
  omega

/-! ## Per-branch absence of exceptions under well-formed payloads -/

theorem readUInt8_ok (buf : List Nat) (off : Nat) (h : off < buf.length) :
    ∃ v, readUInt8 buf off = .ok v := by
  unfold readUInt8
  cases hd : buf.drop off with
  | nil =>
    exfalso
    have := List.drop_eq_nil_iff.mp hd
    omega
  | cons b rest => exact ⟨b, rfl⟩

theorem encodeAccountID_ok (bs : List Nat) (h : bs.length = 20) :
    encodeAccountID bs = .ok ('r' :: hexOfBytesLower bs) := by
  simp [encodeAccountID, h]

theorem decryptStep_ok {env : ClsEnv} {s : JStr}
    (h1 : b64Decode s ≠ [])
    (h2 : ∀ flag rest, b64Decode s = flag :: rest → flag ≠ 1 →
      (env.jsonParse (strOfBytes rest)).isSome = true) :
    ∃ p, decryptStep env s = .ok p := by
  unfold decryptStep
  cases hb : b64Decode s with
  | nil => exact absurd hb h1
  | cons flag rest =>
    by_cases hf : flag = 1
    · subst hf
      simp only [if_pos rfl]
      cases env.messagePrivateKey.bind (fun k => env.decrypt k (b64Encode rest)) with
      | none => exact ⟨_, rfl⟩
      | some d => exact ⟨_, rfl⟩
    · obtain ⟨j, hj⟩ := Option.isSome_iff_exists.mp (h2 flag rest hb hf)
      simp only [if_neg hf, hj]
      exact ⟨_, rfl⟩

/-- Payload well-formedness for the two acquire branches: when the
decryption block runs, the base64 data is non-empty, and a non-encrypted
remainder parses as JSON. -/
def wfAcquirePayload (env : ClsEnv) (tx : Tx) : Prop :=
  ((memo0 tx).format == FORMAT_BASE64 && tx.Destination == some env.ourAddress) = true →
    b64Decode (memo0 tx).data ≠ [] ∧
    ∀ flag rest, b64Decode (memo0 tx).data = flag :: rest → flag ≠ 1 →
      (env.jsonParse (strOfBytes rest)).isSome = true

/-- Reason well-formedness for the two error branches: a `text/json`
memo parses as JSON, and the parse result is not the JSON literal
`null` (whose `.reason` access throws). -/
def wfReason (env : ClsEnv) (m : Memo) : Prop :=
  m.format = FORMAT_JSON → ∃ j, env.jsonParse m.data = some j ∧ j ≠ JsVal.jnull

/-- Property access does not throw on any value other than `null`. -/
theorem getField_ok {j : JsVal} (h : j ≠ JsVal.jnull) (k : JStr) :
    ∃ r, j.getField k = .ok r := by
  cases j with
  | jnull => exact absurd rfl h
  | str s => exact ⟨_, rfl⟩
  | num n => exact ⟨_, rfl⟩
  | boolv b => exact ⟨_, rfl⟩
  | obj fields => exact ⟨_, rfl⟩

theorem parseReason_ok {env : ClsEnv} {m : Memo} (h : wfReason env m) :
    ∃ r, parseReason env m = .ok r := by
  unfold parseReason
  cases hf : (m.format == FORMAT_JSON) with
  | false => exact ⟨_, rfl⟩
  | true =>
    obtain ⟨j, hj, hne⟩ := h (beq_iff_eq.mp hf)
    obtain ⟨r, hr⟩ := getField_ok hne REASON_KEY
    simp only [hj, hr]
    exact ⟨_, rfl⟩

theorem branchAcquireLease_ok (env : ClsEnv) (tx : Tx) (hwf : wfAcquirePayload env tx) :
    ∃ r, branchAcquireLease env tx = .ok r := by
  unfold branchAcquireLease
  cases hc : ((memo0 tx).format == FORMAT_BASE64 && tx.Destination == some env.ourAddress) with
  | false =>
    simp only [hc, Bool.false_eq_true, if_false, bind, Except.bind, pure, Except.pure]
    exact ⟨_, rfl⟩
  | true =>
    obtain ⟨p, hp⟩ := decryptStep_ok (hwf hc).1 (fun f r a b => (hwf hc).2 f r a b)
    simp only [hc, if_true, hp, bind, Except.bind, pure, Except.pure]
    exact ⟨_, rfl⟩

theorem branchAcquireSuccess_ok (env : ClsEnv) (tx : Tx) (hwf : wfAcquirePayload env tx) :
    ∃ r, branchAcquireSuccess env tx = .ok r := by
  unfold branchAcquireSuccess
  cases hc : ((memo0 tx).format == FORMAT_BASE64 && tx.Destination == some env.ourAddress) with
  | false =>
    simp only [hc, Bool.false_eq_true, if_false, bind, Except.bind, pure, Except.pure]
    exact ⟨_, rfl⟩
  | true =>
    obtain ⟨p, hp⟩ := decryptStep_ok (hwf hc).1 (fun f r a b => (hwf hc).2 f r a b)
    simp only [hc, if_true, hp, bind, Except.bind, pure, Except.pure]
    exact ⟨_, rfl⟩

theorem branchAcquireError_ok (env : ClsEnv) (tx : Tx) (hwf : wfReason env (memo0 tx)) :
    ∃ r, branchAcquireError env tx = .ok r := by
  obtain ⟨r, hr⟩ := parseReason_ok hwf
  unfold branchAcquireError
  simp only [hr, bind, Except.bind, pure, Except.pure]
  exact ⟨_, rfl⟩

theorem branchExtendError_ok (env : ClsEnv) (tx : Tx) (hwf : wfReason env (memo0 tx)) :
    ∃ r, branchExtendError env tx = .ok r := by
  obtain ⟨r, hr⟩ := parseReason_ok hwf
  unfold branchExtendError
  simp only [hr, bind, Except.bind, pure, Except.pure]
  exact ⟨_, rfl⟩

theorem branchHostDereg_ok (tx : Tx)
    (hwf : (eventDataOf tx).length = HOST_DEREG_FROM_REP_PARAM_SIZE →
      20 ≤ (hexToBytes (eventDataOf tx)).length) :
    ∃ r, branchHostDereg tx = .ok r := by
  unfold branchHostDereg
  by_cases hc : (eventDataOf tx).length = HOST_DEREG_FROM_REP_PARAM_SIZE
  · have henc := encodeAccountID_ok ((hexToBytes (eventDataOf tx)).take 20)
      (by rw [List.length_take]; omega)
    simp only [hc, if_pos, henc, bind, Except.bind, pure, Except.pure]
    exact ⟨_, rfl⟩
  · simp only [if_neg hc]
    exact ⟨_, rfl⟩

theorem branchHeartbeat_ok (tx : Tx)
    (hwf : eventDataOf tx ≠ [] → 33 ≤ (hexToBytes (eventDataOf tx)).length) :
    ∃ r, branchHeartbeat tx = .ok r := by
  unfold branchHeartbeat
  by_cases he : eventDataOf tx = []
  · simp only [he, List.isEmpty_nil, Bool.not_true, Bool.false_eq_true, if_false,
      bind, Except.bind, pure, Except.pure]
    exact ⟨_, rfl⟩
  · have hlen := hwf he
    obtain ⟨v, hv⟩ := readUInt8_ok (((hexToBytes (eventDataOf tx)).drop 32).take 1)
      0 (by simp [List.length_take]; omega)
    have hne : ((eventDataOf tx).isEmpty : Bool) = false := by
      cases hED : eventDataOf tx with
      | nil => exact absurd hED he
      | cons a l => simp
    simp only [hne, Bool.not_false, if_true, hv, bind, Except.bind, pure, Except.pure]
    exact ⟨_, rfl⟩

theorem branchExtendLease_ok (tx : Tx)
    (hwf : tx.Amount.isSome = true ∧
      ((tx.Flags &&& tfPartialPayment) ≠ 0 → tx.DeliveredAmount.isSome = true)) :
    ∃ r, branchExtendLease tx = .ok r := by
  unfold branchExtendLease
  obtain ⟨a, ha⟩ := Option.isSome_iff_exists.mp hwf.1
  by_cases hflag : (tx.Flags &&& tfPartialPayment) ≠ 0
  · obtain ⟨d, hd⟩ := Option.isSome_iff_exists.mp (hwf.2 hflag)
    have hb : ((tx.Flags &&& tfPartialPayment) != 0) = true := by
      simpa using hflag
    simp only [ha, hd, hb, if_true, bind, Except.bind, pure, Except.pure]
    exact ⟨_, rfl⟩
  · have hb : ((tx.Flags &&& tfPartialPayment) != 0) = false := by
      simpa using hflag
    simp only [ha, hb, Bool.false_eq_true, if_false, bind, Except.bind, pure, Except.pure]
    exact ⟨_, rfl⟩

theorem branchExtendSuccess_ok (tx : Tx)
    (hwf : 4 ≤ (hexToBytes (memo0 tx).data).length) :
    ∃ r, branchExtendSuccess tx = .ok r := by
  unfold branchExtendSuccess readUInt32BE
  simp only [if_pos hwf, bind, Except.bind, pure, Except.pure]
  exact ⟨_, rfl⟩

theorem branchDeadHostPrune_ok (tx : Tx)
    (hwf : (hexToBytes (eventDataOf tx)).length = 20) :
    ∃ r, branchDeadHostPrune tx = .ok r := by
  unfold branchDeadHostPrune
  simp only [encodeAccountID_ok _ hwf, bind, Except.bind, pure, Except.pure]
  exact ⟨_, rfl⟩

theorem branchHostTransfer_ok (tx : Tx)
    (hwf : (hexToBytes (eventDataOf tx)).length = 20) :
    ∃ r, branchHostTransfer tx = .ok r := by
  unfold branchHostTransfer
  simp only [encodeAccountID_ok _ hwf, bind, Except.bind, pure, Except.pure]
  exact ⟨_, rfl⟩

theorem getCandidateType_dudHost_len {cid : JStr} (h : getCandidateType cid = .DudHost) :
    (hexToBytes cid).length = 32 := by
  simp only [getCandidateType] at h
  split at h
  · next hcond => exact hcond.1
  · split at h <;> simp_all

theorem branchCandidateStatusChange_ok (tx : Tx)
    (hwf : getCandidateType (hexOfBytesLower ((hexToBytes (eventDataOf tx)).take 32)) = .DudHost →
      33 ≤ (hexToBytes (eventDataOf tx)).length) :
    ∃ r, branchCandidateStatusChange tx = .ok r := by
  unfold branchCandidateStatusChange
  cases hct : getCandidateType (hexOfBytesLower ((hexToBytes (eventDataOf tx)).take 32)) with
  | DudHost =>
    have hlen := hwf hct
    obtain ⟨v, hv⟩ := readUInt8_ok (hexToBytes (eventDataOf tx)) 32 (by omega)
    have hcid := getCandidateType_dudHost_len hct
    have henc := encodeAccountID_ok
      (((hexToBytes (hexOfBytesLower ((hexToBytes (eventDataOf tx)).take 32))).drop
        DUD_HOST_CANDID_ADDRESS_OFFSET).take 20)
      (by rw [List.length_take, List.length_drop, hcid]; rfl)
    simp only [hct, hv, henc, bind, Except.bind, pure, Except.pure]
    exact ⟨_, rfl⟩
  | PilotedMode =>
    simp only [hct, bind, Except.bind, pure, Except.pure]
    exact ⟨_, rfl⟩
  | NewHook =>
    simp only [hct, bind, Except.bind, pure, Except.pure]
    exact ⟨_, rfl⟩

theorem branchLinkedCandidateRemove_ok (tx : Tx) :
    ∃ r, branchLinkedCandidateRemove tx = .ok r := by
  unfold branchLinkedCandidateRemove
  by_cases hct : getCandidateType (hexOfBytesLower ((hexToBytes (eventDataOf tx)).take 32))
      = CandidateType.DudHost
  · have hcid := getCandidateType_dudHost_len hct
    have henc := encodeAccountID_ok
      (((hexToBytes (hexOfBytesLower ((hexToBytes (eventDataOf tx)).take 32))).drop
        DUD_HOST_CANDID_ADDRESS_OFFSET).take 20)
      (by rw [List.length_take, List.length_drop, hcid]; rfl)
    simp only [hct, if_pos, henc, bind, Except.bind, pure, Except.pure]
    exact ⟨_, rfl⟩
  · simp only [if_neg hct, bind, Except.bind, pure, Except.pure]
    exact ⟨_, rfl⟩

theorem branchGovernanceModeChange_ok (tx : Tx)
    (hwf : 1 ≤ (hexToBytes (eventDataOf tx)).length) :
    ∃ r, branchGovernanceModeChange tx = .ok r := by
  unfold branchGovernanceModeChange
  obtain ⟨v, hv⟩ := readUInt8_ok ((hexToBytes (eventDataOf tx)).take 1) 0
    (by simp [List.length_take]; omega)
  simp only [hv, bind, Except.bind, pure, Except.pure]
  exact ⟨_, rfl⟩

theorem branchCandidateVote_ok (tx : Tx)
    (hwf : 33 ≤ (hexToBytes (eventDataOf tx)).length) :
    ∃ r, branchCandidateVote tx = .ok r := by
  unfold branchCandidateVote
  obtain ⟨v, hv⟩ := readUInt8_ok (((hexToBytes (eventDataOf tx)).drop 32).take 1)
    0 (by simp [List.length_take]; omega)
  simp only [hv, bind, Except.bind, pure, Except.pure]
  exact ⟨_, rfl⟩

theorem branchDudHostReport_ok (tx : Tx)
    (hwf : (hexToBytes ((eventDataOf tx).take 64)).length = 32) :
    ∃ r, branchDudHostReport tx = .ok r := by
  unfold branchDudHostReport
  have henc := encodeAccountID_ok
    (((hexToBytes ((eventDataOf tx).take 64)).drop DUD_HOST_CANDID_ADDRESS_OFFSET).take 20)
    (by rw [List.length_take, List.length_drop, hwf]; rfl)
  simp only [henc, bind, Except.bind, pure, Except.pure]
  exact ⟨_, rfl⟩

theorem branchHostUpdateReputation_ok (tx : Tx)
    (hwf : 21 ≤ (hexToBytes (eventDataOf tx)).length) :
    ∃ r, branchHostUpdateReputation tx = .ok r := by
  unfold branchHostUpdateReputation
  have henc := encodeAccountID_ok
    (((hexToBytes (eventDataOf tx)).drop REPUTATION_HOST_ADDRESS_PARAM_OFFSET).take 20)
    (by rw [List.length_take, List.length_drop]; simp [REPUTATION_HOST_ADDRESS_PARAM_OFFSET]; omega)
  obtain ⟨v, hv⟩ := readUInt8_ok (hexToBytes (eventDataOf tx))
    REPUTATION_VALUE_PARAM_OFFSET (by simp [REPUTATION_VALUE_PARAM_OFFSET]; omega)
  simp only [henc, hv, bind, Except.bind, pure, Except.pure]
  exact ⟨_, rfl⟩

/-- Payload well-formedness for a whole transaction: whichever branch
its guard selects, that branch's payload data has the length/encoding
the branch body reads (expected byte counts, parseable non-`null` JSON
error payloads, present
amount objects). -/
def wellFormedTx (env : ClsEnv) (tx : Tx) : Prop :=
  (gAcquireLease tx = true → wfAcquirePayload env tx) ∧
  (gAcquireSuccess tx = true → wfAcquirePayload env tx) ∧
  (gAcquireError tx = true → wfReason env (memo0 tx)) ∧
  (gHostDereg tx = true → ((eventDataOf tx).length = HOST_DEREG_FROM_REP_PARAM_SIZE →
    20 ≤ (hexToBytes (eventDataOf tx)).length)) ∧
  (gHeartbeat tx = true → (eventDataOf tx ≠ [] → 33 ≤ (hexToBytes (eventDataOf tx)).length)) ∧
  (gExtendLease tx = true → (tx.Amount.isSome = true ∧
    ((tx.Flags &&& tfPartialPayment) ≠ 0 → tx.DeliveredAmount.isSome = true))) ∧
  (gExtendSuccess tx = true → 4 ≤ (hexToBytes (memo0 tx).data).length) ∧
  (gExtendError tx = true → wfReason env (memo0 tx)) ∧
  (gDeadHostPrune tx = true → (hexToBytes (eventDataOf tx)).length = 20) ∧
  (gHostTransfer tx = true → (hexToBytes (eventDataOf tx)).length = 20) ∧
  (gCandidateStatusChange tx = true →
    (getCandidateType (hexOfBytesLower ((hexToBytes (eventDataOf tx)).take 32)) = .DudHost →
      33 ≤ (hexToBytes (eventDataOf tx)).length)) ∧
  (gGovernanceModeChange tx = true → 1 ≤ (hexToBytes (eventDataOf tx)).length) ∧
  (gCandidateVote tx = true → 33 ≤ (hexToBytes (eventDataOf tx)).length) ∧
  (gDudHostReport tx = true → (hexToBytes ((eventDataOf tx).take 64)).length = 32) ∧
  (gHostUpdateReputation tx = true → 21 ≤ (hexToBytes (eventDataOf tx)).length)

/-- C1 (amended): the dispatch predicates are pairwise mutually
exclusive, so no input fires two branches; an input matching no
predicate yields `null` (never an exception); and the classifier throws
no exception on any input whose matched branch finds payload data of
the length/encoding it expects (`wellFormedTx`).  The unconditional
"never throws" of the original claim is refuted by
`extractEvernodeEvent_throws_on_short_heartbeat`. -/
theorem extractEvernodeEvent_dispatch_safety (env : ClsEnv) (tx : Tx) :
    dispatchGuards.Pairwise (fun g g' => ∀ t : Tx, ¬(g t = true ∧ g' t = true))
    ∧ ((∀ g ∈ dispatchGuards, g tx = false) → extractEvernodeEvent env tx = .ok none)
    ∧ (wellFormedTx env tx → ∃ r, extractEvernodeEvent env tx = .ok r) := by
  refine ⟨dispatchGuards_pairwise_exclusive, ?_, ?_⟩
  · intro hall
    have q0 : gAcquireLease tx = false := hall _ (by simp [dispatchGuards])
    have q1 : gAcquireSuccess tx = false := hall _ (by simp [dispatchGuards])
    have q2 : gAcquireError tx = false := hall _ (by simp [dispatchGuards])
    have q3 : gHostReg tx = false := hall _ (by simp [dispatchGuards])
    have q4 : gHostDereg tx = false := hall _ (by simp [dispatchGuards])
    have q5 : gHeartbeat tx = false := hall _ (by simp [dispatchGuards])
    have q6 : gExtendLease tx = false := hall _ (by simp [dispatchGuards])
    have q7 : gTerminateLease tx = false := hall _ (by simp [dispatchGuards])
    have q8 : gExtendSuccess tx = false := hall _ (by simp [dispatchGuards])
    have q9 : gExtendError tx = false := hall _ (by simp [dispatchGuards])
    have q10 : gInit tx = false := hall _ (by simp [dispatchGuards])
    have q11 : gHostUpdateInfo tx = false := hall _ (by simp [dispatchGuards])
    have q12 : gDeadHostPrune tx = false := hall _ (by simp [dispatchGuards])
    have q13 : gHostRebate tx = false := hall _ (by simp [dispatchGuards])
    have q14 : gHostTransfer tx = false := hall _ (by simp [dispatchGuards])
    have q15 : gCandidatePropose tx = false := hall _ (by simp [dispatchGuards])
    have q16 : gCandidateWithdraw tx = false := hall _ (by simp [dispatchGuards])
    have q17 : gCandidateStatusChange tx = false := hall _ (by simp [dispatchGuards])
    have q18 : gLinkedCandidateRemove tx = false := hall _ (by simp [dispatchGuards])
    have q19 : gHookUpdateRes tx = false := hall _ (by simp [dispatchGuards])
    have q20 : gGovernanceModeChange tx = false := hall _ (by simp [dispatchGuards])
    have q21 : gCandidateVote tx = false := hall _ (by simp [dispatchGuards])
    have q22 : gDudHostReport tx = false := hall _ (by simp [dispatchGuards])
    have q23 : gHostUpdateReputation tx = false := hall _ (by simp [dispatchGuards])
    simp [extractEvernodeEvent, q0, q1, q2, q3, q4, q5, q6, q7, q8, q9, q10, q11, q12,
      q13, q14, q15, q16, q17, q18, q19, q20, q21, q22, q23]
  · intro hwf
    obtain ⟨w0, w1, w2, w4, w5, w6, w8, w9, w12, w14, w17, w20, w21, w22, w23⟩ := hwf
    by_cases h0 : gAcquireLease tx = true
    · obtain ⟨r, hr⟩ := branchAcquireLease_ok env tx (w0 h0)
      exact ⟨r, by simp [extractEvernodeEvent, h0, hr]⟩
    by_cases h1 : gAcquireSuccess tx = true
    · obtain ⟨r, hr⟩ := branchAcquireSuccess_ok env tx (w1 h1)
      exact ⟨r, by simp [extractEvernodeEvent, h0, h1, hr]⟩
    by_cases h2 : gAcquireError tx = true
    · obtain ⟨r, hr⟩ := branchAcquireError_ok env tx (w2 h2)
      exact ⟨r, by simp [extractEvernodeEvent, h0, h1, h2, hr]⟩
    by_cases h3 : gHostReg tx = true
    · obtain ⟨r, hr⟩ : ∃ r, branchHostReg tx = .ok r := ⟨_, rfl⟩
      exact ⟨r, by simp [extractEvernodeEvent, h0, h1, h2, h3, hr]⟩
    by_cases h4 : gHostDereg tx = true
    · obtain ⟨r, hr⟩ := branchHostDereg_ok tx (w4 h4)
      exact ⟨r, by simp [extractEvernodeEvent, h0, h1, h2, h3, h4, hr]⟩
    by_cases h5 : gHeartbeat tx = true
    · obtain ⟨r, hr⟩ := branchHeartbeat_ok tx (w5 h5)
      exact ⟨r, by simp [extractEvernodeEvent, h0, h1, h2, h3, h4, h5, hr]⟩
    by_cases h6 : gExtendLease tx = true
    · obtain ⟨r, hr⟩ := branchExtendLease_ok tx (w6 h6)
      exact ⟨r, by simp [extractEvernodeEvent, h0, h1, h2, h3, h4, h5, h6, hr]⟩
    by_cases h7 : gTerminateLease tx = true
    · obtain ⟨r, hr⟩ : ∃ r, branchTerminateLease tx = .ok r := ⟨_, rfl⟩
      exact ⟨r, by simp [extractEvernodeEvent, h0, h1, h2, h3, h4, h5, h6, h7, hr]⟩
    by_cases h8 : gExtendSuccess tx = true
    · obtain ⟨r, hr⟩ := branchExtendSuccess_ok tx (w8 h8)
      exact ⟨r, by simp [extractEvernodeEvent, h0, h1, h2, h3, h4, h5, h6, h7, h8, hr]⟩
    by_cases h9 : gExtendError tx = true
    · obtain ⟨r, hr⟩ := branchExtendError_ok env tx (w9 h9)
      exact ⟨r, by simp [extractEvernodeEvent, h0, h1, h2, h3, h4, h5, h6, h7, h8, h9, hr]⟩
    by_cases h10 : gInit tx = true
    · obtain ⟨r, hr⟩ : ∃ r, branchInit = .ok r := ⟨_, rfl⟩
      exact ⟨r, by simp [extractEvernodeEvent, h0, h1, h2, h3, h4, h5, h6, h7, h8, h9,
        h10, hr]⟩
    by_cases h11 : gHostUpdateInfo tx = true
    · obtain ⟨r, hr⟩ : ∃ r, branchHostUpdateInfo tx = .ok r := ⟨_, rfl⟩
      exact ⟨r, by simp [extractEvernodeEvent, h0, h1, h2, h3, h4, h5, h6, h7, h8, h9,
        h10, h11, hr]⟩
    by_cases h12 : gDeadHostPrune tx = true
    · obtain ⟨r, hr⟩ := branchDeadHostPrune_ok tx (w12 h12)
      exact ⟨r, by simp [extractEvernodeEvent, h0, h1, h2, h3, h4, h5, h6, h7, h8, h9,
        h10, h11, h12, hr]⟩
    by_cases h13 : gHostRebate tx = true
    · obtain ⟨r, hr⟩ : ∃ r, branchHostRebate tx = .ok r := ⟨_, rfl⟩
      exact ⟨r, by simp [extractEvernodeEvent, h0, h1, h2, h3, h4, h5, h6, h7, h8, h9,
        h10, h11, h12, h13, hr]⟩
    by_cases h14 : gHostTransfer tx = true
    · obtain ⟨r, hr⟩ := branchHostTransfer_ok tx (w14 h14)
      exact ⟨r, by simp [extractEvernodeEvent, h0, h1, h2, h3, h4, h5, h6, h7, h8, h9,
        h10, h11, h12, h13, h14, hr]⟩
    by_cases h15 : gCandidatePropose tx = true
    · obtain ⟨r, hr⟩ : ∃ r, branchCandidatePropose tx = .ok r := ⟨_, rfl⟩
      exact ⟨r, by simp [extractEvernodeEvent, h0, h1, h2, h3, h4, h5, h6, h7, h8, h9,
        h10, h11, h12, h13, h14, h15, hr]⟩
    by_cases h16 : gCandidateWithdraw tx = true
    · obtain ⟨r, hr⟩ : ∃ r, branchCandidateWithdraw tx = .ok r := ⟨_, rfl⟩
      exact ⟨r, by simp [extractEvernodeEvent, h0, h1, h2, h3, h4, h5, h6, h7, h8, h9,
        h10, h11, h12, h13, h14, h15, h16, hr]⟩
    by_cases h17 : gCandidateStatusChange tx = true
    · obtain ⟨r, hr⟩ := branchCandidateStatusChange_ok tx (w17 h17)
      exact ⟨r, by simp [extractEvernodeEvent, h0, h1, h2, h3, h4, h5, h6, h7, h8, h9,
        h10, h11, h12, h13, h14, h15, h16, h17, hr]⟩
    by_cases h18 : gLinkedCandidateRemove tx = true
    · obtain ⟨r, hr⟩ := branchLinkedCandidateRemove_ok tx
      exact ⟨r, by simp [extractEvernodeEvent, h0, h1, h2, h3, h4, h5, h6, h7, h8, h9,
        h10, h11, h12, h13, h14, h15, h16, h17, h18, hr]⟩
    by_cases h19 : gHookUpdateRes tx = true
    · obtain ⟨r, hr⟩ : ∃ r, branchHookUpdateRes tx = .ok r := ⟨_, rfl⟩
      exact ⟨r, by simp [extractEvernodeEvent, h0, h1, h2, h3, h4, h5, h6, h7, h8, h9,
        h10, h11, h12, h13, h14, h15, h16, h17, h18, h19, hr]⟩
    by_cases h20 : gGovernanceModeChange tx = true
    · obtain ⟨r, hr⟩ := branchGovernanceModeChange_ok tx (w20 h20)
      exact ⟨r, by simp [extractEvernodeEvent, h0, h1, h2, h3, h4, h5, h6, h7, h8, h9,
        h10, h11, h12, h13, h14, h15, h16, h17, h18, h19, h20, hr]⟩
    by_cases h21 : gCandidateVote tx = true
    · obtain ⟨r, hr⟩ := branchCandidateVote_ok tx (w21 h21)
      exact ⟨r, by simp [extractEvernodeEvent, h0, h1, h2, h3, h4, h5, h6, h7, h8, h9,
        h10, h11, h12, h13, h14, h15, h16, h17, h18, h19, h20, h21, hr]⟩
    by_cases h22 : gDudHostReport tx = true
    · obtain ⟨r, hr⟩ := branchDudHostReport_ok tx (w22 h22)
      exact ⟨r, by simp [extractEvernodeEvent, h0, h1, h2, h3, h4, h5, h6, h7, h8, h9,
        h10, h11, h12, h13, h14, h15, h16, h17, h18, h19, h20, h21, h22, hr]⟩
    by_cases h23 : gHostUpdateReputation tx = true
    · obtain ⟨r, hr⟩ := branchHostUpdateReputation_ok tx (w23 h23)
      exact ⟨r, by simp [extractEvernodeEvent, h0, h1, h2, h3, h4, h5, h6, h7, h8, h9,
        h10, h11, h12, h13, h14, h15, h16, h17, h18, h19, h20, h21, h22, h23, hr]⟩
    exact ⟨none, by simp [extractEvernodeEvent, h0, h1, h2, h3, h4, h5, h6, h7, h8, h9,
      h10, h11, h12, h13, h14, h15, h16, h17, h18, h19, h20, h21, h22, h23]⟩

/-! ## Concrete scenarios -/

/-- A minimal environment: no message key, and decrypt / parse
capabilities that always come back empty. -/
def envTrivial : ClsEnv := ⟨[], none, fun _ _ => none, fun _ => none⟩

/-- A transaction with no memos and no hook parameters. -/
def txTrivial : Tx := ⟨[], [], none, [], [], none, none, 0, [], none⟩

/-- A heartbeat transaction carrying a one-byte event payload: its memo
and hook-parameter lists are fully deserialized, yet the vote read at
byte offset 32 is out of range. -/
def txHeartbeatShort : Tx :=
  ⟨[], "rHOST".toList, none, [],
   [⟨PARAM_EVENT_TYPE_KEY, HEARTBEAT⟩, ⟨PARAM_EVENT_DATA_KEY, "01".toList⟩],
   none, none, 0, [], none⟩

/-- C1 counterexample: a well-formed input in the claim's sense (memo
and hook-parameter lists deserialized) on which `extractEvernodeEvent`
throws — the heartbeat vote read at byte offset 32 of a one-byte
payload — refuting the unconditional "never throws". -/
theorem extractEvernodeEvent_throws_on_short_heartbeat :
    extractEvernodeEvent envTrivial txHeartbeatShort = .error () := by
  rfl

/-- C1 witness: the dispatch-safety theorem applied at a concrete
no-match input. -/
theorem extractEvernodeEvent_dispatch_safety_witness :
    (∀ g ∈ dispatchGuards, g txTrivial = false)
    ∧ extractEvernodeEvent envTrivial txTrivial = .ok none :=
  ⟨by decide, (extractEvernodeEvent_dispatch_safety envTrivial txTrivial).2.1 (by decide)⟩

/-- The 53-byte reputation-initiated deregistration payload
`<host_address(20)><token_id(32)><error(1)>` from the constant's own
comment. -/
def hostDeregPayloadBytes : List Nat :=
  List.replicate 20 170 ++ List.replicate 32 187 ++ [1]

/-- A `HOST_DEREG` transaction whose event payload is the 53-byte
reputation-path payload, hex-serialized (106 characters) as hook
parameters carry it. -/
def txHostDeregFromRep : Tx :=
  ⟨[], "rSENDER".toList, none, [],
   [⟨PARAM_EVENT_TYPE_KEY, HOST_DEREG⟩,
    ⟨PARAM_EVENT_DATA_KEY, hexOfBytesUpper hostDeregPayloadBytes⟩],
   none, none, 0, [], none⟩

/-- C2: on a genuine 53-**byte** `HOST_DEREG` payload the classifier
falls back to the transaction's sending account instead of decoding the
host from the payload's first 20 bytes: the branch compares the
byte-size constant `HOST_DEREG_FROM_REP_PARAM_SIZE = 53` against the
length of the *hex string* (106 characters here), so the reputation-path
decode can never fire on byte-aligned data. -/
theorem extractEvernodeEvent_hostDereg_53_byte_payload_uses_account :
    (hexToBytes (eventDataOf txHostDeregFromRep)).length = HOST_DEREG_FROM_REP_PARAM_SIZE
    ∧ (eventDataOf txHostDeregFromRep).length = 106
    ∧ extractEvernodeEvent envTrivial txHostDeregFromRep
        = .ok (some (.HostDeregistered "rSENDER".toList))
    ∧ "rSENDER".toList ≠ 'r' :: hexOfBytesLower (List.replicate 20 170) :=
  ⟨by decide, by decide, by rfl, by decide⟩

/-! ## Reducing the dispatch chain to a single branch -/

theorem extract_eq_branchCandidatePropose {env : ClsEnv} {tx : Tx}
    (hET : eventTypeOf tx = some CANDIDATE_PROPOSE) (hED : eventDataOf tx ≠ []) :
    extractEvernodeEvent env tx = branchCandidatePropose tx := by
  have q0 := guard_false_of_tag (fun _ h => gAcquireLease_tag h) hET (by decide)
  have q1 := guard_false_of_tag (fun _ h => gAcquireSuccess_tag h) hET (by decide)
  have q2 := guard_false_of_tag (fun _ h => gAcquireError_tag h) hET (by decide)
  have q3 := guard_false_of_tag (fun _ h => gHostReg_tag h) hET (by decide)
  have q4 := guard_false_of_tag (fun _ h => gHostDereg_tag h) hET (by decide)
  have q5 := guard_false_of_tag (fun _ h => gHeartbeat_tag h) hET (by decide)
  have q6 := guard_false_of_tag (fun _ h => gExtendLease_tag h) hET (by decide)
  have q7 := guard_false_of_tag (fun _ h => gTerminateLease_tag h) hET (by decide)
  have q8 := guard_false_of_tag (fun _ h => gExtendSuccess_tag h) hET (by decide)
  have q9 := guard_false_of_tag (fun _ h => gExtendError_tag h) hET (by decide)
  have q10 := guard_false_of_tag (fun _ h => gInit_tag h) hET (by decide)
  have q11 := guard_false_of_tag (fun _ h => gHostUpdateInfo_tag h) hET (by decide)
  have q12 := guard_false_of_tag (fun _ h => gDeadHostPrune_tag h) hET (by decide)
  have q13 := guard_false_of_tag (fun _ h => gHostRebate_tag h) hET (by decide)
  have q14 := guard_false_of_tag (fun _ h => gHostTransfer_tag h) hET (by decide)
  have hg : gCandidatePropose tx = true := by
    simp [gCandidatePropose, hET, hED]
  simp [extractEvernodeEvent, q0, q1, q2, q3, q4, q5, q6, q7, q8, q9, q10, q11, q12,
    q13, q14, hg]

theorem extract_eq_branchHostDereg {env : ClsEnv} {tx : Tx}
    (hET : eventTypeOf tx = some HOST_DEREG) (hED : eventDataOf tx ≠ []) :
    extractEvernodeEvent env tx = branchHostDereg tx := by
  have q0 := guard_false_of_tag (fun _ h => gAcquireLease_tag h) hET (by decide)
  have q1 := guard_false_of_tag (fun _ h => gAcquireSuccess_tag h) hET (by decide)
  have q2 := guard_false_of_tag (fun _ h => gAcquireError_tag h) hET (by decide)
  have q3 := guard_false_of_tag (fun _ h => gHostReg_tag h) hET (by decide)
  have hg : gHostDereg tx = true := by
    simp [gHostDereg, hET, hED]
  simp [extractEvernodeEvent, q0, q1, q2, q3, hg]

theorem extract_eq_branchCandidateStatusChange {env : ClsEnv} {tx : Tx}
    (hET : eventTypeOf tx = some CANDIDATE_STATUS_CHANGE) (hED : eventDataOf tx ≠ []) :
    extractEvernodeEvent env tx = branchCandidateStatusChange tx := by
  have q0 := guard_false_of_tag (fun _ h => gAcquireLease_tag h) hET (by decide)
  have q1 := guard_false_of_tag (fun _ h => gAcquireSuccess_tag h) hET (by decide)
  have q2 := guard_false_of_tag (fun _ h => gAcquireError_tag h) hET (by decide)
  have q3 := guard_false_of_tag (fun _ h => gHostReg_tag h) hET (by decide)
  have q4 := guard_false_of_tag (fun _ h => gHostDereg_tag h) hET (by decide)
  have q5 := guard_false_of_tag (fun _ h => gHeartbeat_tag h) hET (by decide)
  have q6 := guard_false_of_tag (fun _ h => gExtendLease_tag h) hET (by decide)
  have q7 := guard_false_of_tag (fun _ h => gTerminateLease_tag h) hET (by decide)
  have q8 := guard_false_of_tag (fun _ h => gExtendSuccess_tag h) hET (by decide)
  have q9 := guard_false_of_tag (fun _ h => gExtendError_tag h) hET (by decide)
  have q10 := guard_false_of_tag (fun _ h => gInit_tag h) hET (by decide)
  have q11 := guard_false_of_tag (fun _ h => gHostUpdateInfo_tag h) hET (by decide)
  have q12 := guard_false_of_tag (fun _ h => gDeadHostPrune_tag h) hET (by decide)
  have q13 := guard_false_of_tag (fun _ h => gHostRebate_tag h) hET (by decide)
  have q14 := guard_false_of_tag (fun _ h => gHostTransfer_tag h) hET (by decide)
  have q15 := guard_false_of_tag (fun _ h => gCandidatePropose_tag h) hET (by decide)
  have q16 := guard_false_of_tag (fun _ h => gCandidateWithdraw_tag h) hET (by decide)
  have hg : gCandidateStatusChange tx = true := by
    simp [gCandidateStatusChange, hET, hED]
  simp [extractEvernodeEvent, q0, q1, q2, q3, q4, q5, q6, q7, q8, q9, q10, q11, q12,
    q13, q14, q15, q16, hg]

theorem extract_eq_branchAcquireLease {env : ClsEnv} {tx : Tx}
    (hg : gAcquireLease tx = true) :
    extractEvernodeEvent env tx = branchAcquireLease env tx := by
  simp [extractEvernodeEvent, hg]

theorem extract_eq_branchAcquireSuccess {env : ClsEnv} {tx : Tx}
    (hg : gAcquireSuccess tx = true) :
    extractEvernodeEvent env tx = branchAcquireSuccess env tx := by
  have q0 := guard_false_of_tag (fun _ h => gAcquireLease_tag h)
    (gAcquireSuccess_tag hg) (by decide)
  simp [extractEvernodeEvent, q0, hg]

/-! ## Candidate-propose payload construction (`_propose`) -/

/-- Node `src.copy(dst, off)` on buffers: overwrite `dst` from position
`off` with as much of `src` as fits; the buffer's length never changes. -/
def bufWrite (dst : List Nat) (off : Nat) (src : List Nat) : List Nat :=
  dst.take off ++ src.take (dst.length - off) ++ dst.drop (off + src.length)

/-- Function `_propose` builds this 316-byte parameter buffer: a zero-filled
`Buffer.alloc(316)` receiving the hook-hash bundle at byte 0, the keylet
bundle at byte 128, the candidate unique id at byte 264 and the
(truncated-to-20-bytes) short name at byte 296. -/
def buildProposeParam (hashesBuf keyletsBuf uniqueIdBuf shortNameBuf : List Nat) : List Nat :=
  bufWrite (bufWrite (bufWrite (bufWrite (List.replicate CANDIDATE_PROPOSE_PARAM_SIZE 0)
    CANDIDATE_PROPOSE_HASHES_PARAM_OFFSET hashesBuf)
    CANDIDATE_PROPOSE_KEYLETS_PARAM_OFFSET keyletsBuf)
    CANDIDATE_PROPOSE_UNIQUE_ID_PARAM_OFFSET uniqueIdBuf)
    CANDIDATE_PROPOSE_SHORT_NAME_PARAM_OFFSET (shortNameBuf.take 20)

/-- With full-length fields the propose buffer is exactly their
concatenation. -/
theorem buildProposeParam_eq (h k u s : List Nat) (hh : h.length = 128) (hk : k.length = 136)
    (hu : u.length = 32) (hs : s.length = 20) :
    buildProposeParam h k u s = h ++ k ++ u ++ s := by
  have hrep188 : List.replicate 188 (0 : Nat) = List.replicate 136 0 ++ List.replicate 52 0 := by
    rw [← List.replicate_add]
  have hrep52 : List.replicate 52 (0 : Nat) = List.replicate 32 0 ++ List.replicate 20 0 := by
    rw [← List.replicate_add]
  have e1 : bufWrite (List.replicate 316 0) 0 h = h ++ List.replicate 188 0 := by
    unfold bufWrite
    rw [List.length_replicate, List.take_zero, List.nil_append, Nat.sub_zero,
      List.take_of_length_le (by omega), hh, List.drop_replicate]
  have e2 : bufWrite (h ++ List.replicate 188 0) 128 k = (h ++ k) ++ List.replicate 52 0 := by
    unfold bufWrite
    rw [List.length_append, List.length_replicate, hh, hk]
    rw [List.take_left' hh, List.take_of_length_le (by omega)]
    rw [hrep188, ← List.append_assoc]
    rw [List.drop_left' (by simp [hh])]
  have e3 : bufWrite ((h ++ k) ++ List.replicate 52 0) 264 u
      = ((h ++ k) ++ u) ++ List.replicate 20 0 := by
    unfold bufWrite
    rw [List.length_append, List.length_append, List.length_replicate, hh, hk, hu]
    rw [List.take_left' (by simp [hh, hk]), List.take_of_length_le (by omega)]
    rw [hrep52, ← List.append_assoc]
    rw [List.drop_left' (by simp [hh, hk])]
  have e4 : bufWrite (((h ++ k) ++ u) ++ List.replicate 20 0) 296 (s.take 20)
      = ((h ++ k) ++ u) ++ s := by
    unfold bufWrite
    have hs20 : s.take 20 = s := List.take_of_length_le (by omega)
    rw [hs20]
    rw [List.length_append, List.length_append, List.length_append, List.length_replicate,
      hh, hk, hu, hs]
    rw [List.take_left' (by simp [hh, hk, hu]), List.take_of_length_le (by omega)]
    rw [List.drop_eq_nil_of_le (by simp [hh, hk, hu]), List.append_nil]
  show bufWrite (bufWrite (bufWrite (bufWrite (List.replicate 316 0) 0 h) 128 k) 264 u)
      296 (s.take 20) = h ++ k ++ u ++ s
  rw [e1, e2, e3, e4]

theorem buildProposeParam_length (h k u s : List Nat) (hh : h.length = 128)
    (hk : k.length = 136) (hu : u.length = 32) (hs : s.length = 20) :
    (buildProposeParam h k u s).length = 316 := by
  rw [buildProposeParam_eq h k u s hh hk hu hs]
  simp [hh, hk, hu, hs]

/-- C3: round trip of the candidate-propose payload.  Building the
316-byte buffer (hashes at byte 0, keylets at 128, unique id at 264,
short name at 296), splitting it at byte 256 into a 256-byte and a
60-byte hook-parameter chunk, then concatenating the chunks reproduces
the buffer, and decoding the concatenation at the fixed offsets
reproduces the original 128/136/32/20-byte fields exactly; moreover the
classifier's `CandidateProposed` event on a transaction whose
(reassembled) event data is the hex of the two chunks reports
`candidateId` equal to the hex of the 32-byte unique id at byte offset
264. -/
theorem proposeParam_roundtrip (h k u s : List Nat) (hh : h.length = 128)
    (hk : k.length = 136) (hu : u.length = 32) (hs : s.length = 20) :
    ((buildProposeParam h k u s).take MAX_HOOK_PARAM_SIZE).length = 256
    ∧ ((buildProposeParam h k u s).drop MAX_HOOK_PARAM_SIZE).length = 60
    ∧ (buildProposeParam h k u s).take MAX_HOOK_PARAM_SIZE
        ++ (buildProposeParam h k u s).drop MAX_HOOK_PARAM_SIZE = buildProposeParam h k u s
    ∧ (buildProposeParam h k u s).take 128 = h
    ∧ ((buildProposeParam h k u s).drop 128).take 136 = k
    ∧ ((buildProposeParam h k u s).drop 264).take 32 = u
    ∧ ((buildProposeParam h k u s).drop 296).take 20 = s
    ∧ (∀ (env : ClsEnv) (tx : Tx),
        eventTypeOf tx = some CANDIDATE_PROPOSE →
        eventDataOf tx
          = hexOfBytesUpper ((buildProposeParam h k u s).take MAX_HOOK_PARAM_SIZE)
            ++ hexOfBytesUpper ((buildProposeParam h k u s).drop MAX_HOOK_PARAM_SIZE) →
        extractEvernodeEvent env tx
          = .ok (some (.CandidateProposed tx.Account (hexOfBytesUpper u)))) := by
  have heq := buildProposeParam_eq h k u s hh hk hu hs
  have hlen : (buildProposeParam h k u s).length = 316 :=
    buildProposeParam_length h k u s hh hk hu hs
  have heq2 : buildProposeParam h k u s = (h ++ k) ++ (u ++ s) := by
    rw [heq]
    simp [List.append_assoc]
  have heq3 : buildProposeParam h k u s = h ++ (k ++ (u ++ s)) := by
    rw [heq]
    simp [List.append_assoc]
  have heq4 : buildProposeParam h k u s = ((h ++ k) ++ u) ++ s := heq
  have c1 : ((buildProposeParam h k u s).take MAX_HOOK_PARAM_SIZE).length = 256 := by
    rw [List.length_take, hlen]
    rfl
  have c2 : ((buildProposeParam h k u s).drop MAX_HOOK_PARAM_SIZE).length = 60 := by
    rw [List.length_drop, hlen]
    rfl
  have c3 := List.take_append_drop MAX_HOOK_PARAM_SIZE (buildProposeParam h k u s)
  have c4 : (buildProposeParam h k u s).take 128 = h := by
    rw [heq3]
    exact List.take_left' hh
  have c5 : ((buildProposeParam h k u s).drop 128).take 136 = k := by
    rw [heq3, List.drop_left' hh]
    exact List.take_left' hk
  have c6 : ((buildProposeParam h k u s).drop 264).take 32 = u := by
    rw [heq2, List.drop_left' (by simp [hh, hk])]
    exact List.take_left' hu
  have c7 : ((buildProposeParam h k u s).drop 296).take 20 = s := by
    rw [heq4, List.drop_left' (by simp [hh, hk, hu])]
    exact List.take_of_length_le (by omega)
  refine ⟨c1, c2, c3, c4, c5, c6, c7, ?_⟩
  intro env tx hET hED'
  have hEDlen : (eventDataOf tx).length = 632 := by
    rw [hED', List.length_append, hexOfBytesUpper_length, hexOfBytesUpper_length, c1, c2]
  have hED : eventDataOf tx ≠ [] := by
    intro hc
    rw [hc] at hEDlen
    simp at hEDlen
  rw [extract_eq_branchCandidatePropose hET hED]
  have hcat : hexOfBytesUpper ((buildProposeParam h k u s).take MAX_HOOK_PARAM_SIZE)
      ++ hexOfBytesUpper ((buildProposeParam h k u s).drop MAX_HOOK_PARAM_SIZE)
      = hexOfBytesUpper (buildProposeParam h k u s) := by
    rw [← hexOfBytesUpper_append, List.take_append_drop]
  have hoff : CANDIDATE_PROPOSE_UNIQUE_ID_PARAM_OFFSET * 2 = 2 * 264 := by
    norm_num [CANDIDATE_PROPOSE_UNIQUE_ID_PARAM_OFFSET]
  have hcid : ((eventDataOf tx).drop (CANDIDATE_PROPOSE_UNIQUE_ID_PARAM_OFFSET * 2)).take 64
      = hexOfBytesUpper u := by
    rw [hED', hcat, hoff, hexOfBytesUpper_drop (by omega)]
    rw [show (64 : Nat) = 2 * 32 from rfl,
      hexOfBytesUpper_take (by rw [List.length_drop, hlen]; omega)]
    rw [c6]
  simp [branchCandidatePropose, hcid]

/-- A concrete propose buffer with distinguishable fields. -/
def proposeDemoParam : List Nat :=
  buildProposeParam (List.replicate 128 1) (List.replicate 136 2) (List.replicate 32 3)
    (List.replicate 20 4)

/-- A `CANDIDATE_PROPOSE` transaction whose event data is the
reassembled hex of the two propose-parameter chunks. -/
def txProposeDemo : Tx :=
  ⟨[], "rOWNER".toList, none, [],
   [⟨PARAM_EVENT_TYPE_KEY, CANDIDATE_PROPOSE⟩,
    ⟨PARAM_EVENT_DATA_KEY, hexOfBytesUpper (proposeDemoParam.take MAX_HOOK_PARAM_SIZE)
      ++ hexOfBytesUpper (proposeDemoParam.drop MAX_HOOK_PARAM_SIZE)⟩],
   none, none, 0, [], none⟩

set_option maxRecDepth 16384 in
/-- C3 witness: the round-trip theorem applied to a concrete buffer. -/
theorem proposeParam_roundtrip_witness :
    proposeDemoParam.take 128 = List.replicate 128 1
    ∧ (proposeDemoParam.drop 264).take 32 = List.replicate 32 3
    ∧ extractEvernodeEvent envTrivial txProposeDemo
        = .ok (some (.CandidateProposed "rOWNER".toList
            (hexOfBytesUpper (List.replicate 32 3)))) := by
  have hthm := proposeParam_roundtrip (List.replicate 128 1) (List.replicate 136 2)
    (List.replicate 32 3) (List.replicate 20 4) (by decide) (by decide) (by decide) (by decide)
  exact ⟨hthm.2.2.2.1, hthm.2.2.2.2.2.1,
    hthm.2.2.2.2.2.2.2 envTrivial txProposeDemo (by rfl) (by rfl)⟩

/-! ## The candidate-status-change dispatch (C6) -/

/-- C6: for a `CANDIDATE_STATUS_CHANGE` transaction (with the status
byte present at offset 32), the emitted event is determined solely by
classifying the 32-byte candidate id at the start of the event data —
DudHost ids yield `DudHostRemoved` exactly when the status byte is
`CANDIDATE_ELECTED` and `DudHostStatusChanged` otherwise, both carrying
the address encoded from candidate-id bytes 12..32; the PilotedMode id
yields `FallbackToPiloted`; every other id yields
`NewHookStatusChanged`; and no other outcome is possible. -/
theorem extractEvernodeEvent_candidateStatusChange (env : ClsEnv) (tx : Tx)
    (hET : eventTypeOf tx = some CANDIDATE_STATUS_CHANGE) (hED : eventDataOf tx ≠ [])
    (status : Nat) (rest : List Nat)
    (hstatus : (hexToBytes (eventDataOf tx)).drop 32 = status :: rest) :
    extractEvernodeEvent env tx = .ok (some
      (match getCandidateType (hexOfBytesLower ((hexToBytes (eventDataOf tx)).take 32)) with
        | .DudHost =>
          if status = CANDIDATE_ELECTED then
            Event.DudHostRemoved (hexOfBytesLower ((hexToBytes (eventDataOf tx)).take 32))
              ('r' :: hexOfBytesLower
                ((((hexToBytes (eventDataOf tx)).take 32).drop DUD_HOST_CANDID_ADDRESS_OFFSET).take 20))
          else
            Event.DudHostStatusChanged (hexOfBytesLower ((hexToBytes (eventDataOf tx)).take 32))
              ('r' :: hexOfBytesLower
                ((((hexToBytes (eventDataOf tx)).take 32).drop DUD_HOST_CANDID_ADDRESS_OFFSET).take 20))
        | .PilotedMode =>
          Event.FallbackToPiloted (hexOfBytesLower ((hexToBytes (eventDataOf tx)).take 32))
        | .NewHook =>
          Event.NewHookStatusChanged (hexOfBytesLower ((hexToBytes (eventDataOf tx)).take 32)))) := by
  rw [extract_eq_branchCandidateStatusChange hET hED]
  unfold branchCandidateStatusChange
  have hread : readUInt8 (hexToBytes (eventDataOf tx)) 32 = .ok status := by
    unfold readUInt8
    rw [hstatus]
  cases hct : getCandidateType (hexOfBytesLower ((hexToBytes (eventDataOf tx)).take 32)) with
  | DudHost =>
    have hrt : hexToBytes (hexOfBytesLower ((hexToBytes (eventDataOf tx)).take 32))
        = (hexToBytes (eventDataOf tx)).take 32 :=
      hexToBytes_hexOfBytesLower _
        (fun b hb => hexToBytes_lt (eventDataOf tx) b (List.mem_of_mem_take hb))
    have hlen32 := getCandidateType_dudHost_len hct
    rw [hrt] at hlen32
    have henc : encodeAccountID
        ((((hexToBytes (eventDataOf tx)).take 32).drop DUD_HOST_CANDID_ADDRESS_OFFSET).take 20)
        = .ok ('r' :: hexOfBytesLower
          ((((hexToBytes (eventDataOf tx)).take 32).drop DUD_HOST_CANDID_ADDRESS_OFFSET).take 20)) :=
      encodeAccountID_ok _ (by
        rw [List.length_take, List.length_drop, hlen32]
        rfl)
    simp only [hct, hread, hrt, henc, bind, Except.bind, pure, Except.pure]
  | PilotedMode =>
    simp only [hct, bind, Except.bind, pure, Except.pure]
  | NewHook =>
    simp only [hct, bind, Except.bind, pure, Except.pure]

/-- A DudHost candidate id: the discriminant pattern followed by a
20-byte account id. -/
def dudCandidateBytes : List Nat := DUD_HOST_CANDID_DISCRIMINANT ++ List.replicate 20 9

/-- A `CANDIDATE_STATUS_CHANGE` transaction for that candidate with
status byte `CANDIDATE_ELECTED`. -/
def txCandStatusDemo : Tx :=
  ⟨[], [], none, [],
   [⟨PARAM_EVENT_TYPE_KEY, CANDIDATE_STATUS_CHANGE⟩,
    ⟨PARAM_EVENT_DATA_KEY, hexOfBytesLower (dudCandidateBytes ++ [2])⟩],
   none, none, 0, [], none⟩

set_option maxRecDepth 16384 in
/-- C6 witness: the dispatch theorem applied to a concrete elected
DudHost candidate. -/
theorem extractEvernodeEvent_candidateStatusChange_witness :
    extractEvernodeEvent envTrivial txCandStatusDemo
      = .ok (some (.DudHostRemoved (hexOfBytesLower dudCandidateBytes)
          ('r' :: hexOfBytesLower (List.replicate 20 9)))) := by
  have hthm := extractEvernodeEvent_candidateStatusChange envTrivial txCandStatusDemo
    (by rfl) (by decide) 2 [] (by decide)
  rw [hthm]
  rfl

/-! ## Decrypt-failure degradation (C7) -/

/-- C7: for a lease-acquisition (or acquire-success) payload whose
one-byte format flag is `1` and whose transaction names this account as
`Destination`, a decrypt capability that returns nothing is non-fatal:
the event is still produced and its payload is the pre-decryption
(still encrypted, re-encoded) remainder. -/
theorem extractEvernodeEvent_decrypt_failure_keeps_payload (env : ClsEnv) (tx : Tx) :
    (gAcquireLease tx = true → tx.Destination = some env.ourAddress →
      ∀ rest : List Nat, b64Decode (memo0 tx).data = 1 :: rest →
      env.messagePrivateKey.bind (fun kk => env.decrypt kk (b64Encode rest)) = none →
      extractEvernodeEvent env tx = .ok (some (.AcquireLease tx.Destination
        ((tx.URITokenSellOffer).map (fun o => o.index))
        ((tx.URITokenSellOffer.bind (fun o => o.amount)).map (fun a => a.value))
        tx.hash tx.Account (.str (b64Encode rest)))))
    ∧ (gAcquireSuccess tx = true → (memo0 tx).format = FORMAT_BASE64 →
      tx.Destination = some env.ourAddress →
      ∀ rest : List Nat, b64Decode (memo0 tx).data = 1 :: rest →
      env.messagePrivateKey.bind (fun kk => env.decrypt kk (b64Encode rest)) = none →
      extractEvernodeEvent env tx
        = .ok (some (.AcquireSuccess (eventDataOf tx) (.str (b64Encode rest))))) := by
  constructor
  · intro hg hdest rest hflag hdec
    have hfmt : (memo0 tx).format = FORMAT_BASE64 := by
      simp only [gAcquireLease, Bool.and_eq_true, beq_iff_eq] at hg
      exact hg.1.2
    have hcond : ((memo0 tx).format == FORMAT_BASE64 && tx.Destination == some env.ourAddress)
        = true := by
      simp [hfmt, hdest]
    rw [extract_eq_branchAcquireLease hg]
    unfold branchAcquireLease decryptStep
    simp only [hcond, if_true, hflag, if_pos rfl, hdec, bind, Except.bind, pure, Except.pure]
  · intro hg hfmt hdest rest hflag hdec
    have hcond : ((memo0 tx).format == FORMAT_BASE64 && tx.Destination == some env.ourAddress)
        = true := by
      simp [hfmt, hdest]
    rw [extract_eq_branchAcquireSuccess hg]
    unfold branchAcquireSuccess decryptStep
    simp only [hcond, if_true, hflag, if_pos rfl, hdec, bind, Except.bind, pure, Except.pure]

/-- An environment holding a message key whose decrypt capability never
yields a result. -/
def envNoDecrypt : ClsEnv := ⟨"rME".toList, some "k".toList, fun _ _ => none, fun _ => none⟩

/-- An encrypted (`flag = 1`) acquire-lease offer addressed to `rME`. -/
def txAcquireEncrypted : Tx :=
  ⟨URI_TOKEN_BUY_OFFER, "rTENANT".toList, some "rME".toList,
   [⟨ACQUIRE_LEASE, FORMAT_BASE64, b64Encode [1, 7, 8]⟩],
   [⟨PARAM_EVENT_TYPE_KEY, ACQUIRE_LEASE⟩],
   none, none, 0, "HASH1".toList, none⟩

/-- An encrypted (`flag = 1`) acquire-success response addressed to `rME`. -/
def txAcquireSuccessEncrypted : Tx :=
  ⟨[], "rHOST".toList, some "rME".toList,
   [⟨ACQUIRE_SUCCESS, FORMAT_BASE64, b64Encode [1, 7, 8]⟩],
   [⟨PARAM_EVENT_TYPE_KEY, ACQUIRE_SUCCESS⟩,
    ⟨PARAM_EVENT_DATA_KEY, "AA11".toList⟩],
   none, none, 0, "HASH2".toList, none⟩

/-- C7 witness: the degradation theorem applied to concrete encrypted
payloads, for both event kinds. -/
theorem extractEvernodeEvent_decrypt_failure_witness :
    extractEvernodeEvent envNoDecrypt txAcquireEncrypted
      = .ok (some (.AcquireLease (some "rME".toList) none none "HASH1".toList
          "rTENANT".toList (.str (b64Encode [7, 8]))))
    ∧ extractEvernodeEvent envNoDecrypt txAcquireSuccessEncrypted
      = .ok (some (.AcquireSuccess "AA11".toList (.str (b64Encode [7, 8])))) :=
  ⟨(extractEvernodeEvent_decrypt_failure_keeps_payload envNoDecrypt txAcquireEncrypted).1
      (by decide) (by decide) [7, 8] (by decide) (by rfl),
   (extractEvernodeEvent_decrypt_failure_keeps_payload envNoDecrypt txAcquireSuccessEncrypted).2
      (by decide) (by decide) (by decide) [7, 8] (by decide) (by rfl)⟩

/-! ## Legacy-generation candidate-status-change fragment (C9) -/

/-- Which `ripple-address-codec` function a classifier applies to which
bytes.  `encodeID` is the raw-20-bytes → address-string direction;
`decodeID` is the address-string → bytes direction (which throws when
handed raw bytes instead of a base58 string).  The symbolic constructor
records the direction, which is exactly what the claim is about. -/
inductive AccountIdOp where
  | encodeID (accountId : List Nat)
  | decodeID (accountId : List Nat)
deriving DecidableEq

/-- The events the legacy `CANDIDATE_STATUS_CHANGE` branch can emit. -/
inductive LegacyEvent where
  | DudHostRemoved (candidateId : JStr) (host : AccountIdOp)
  | FallbackToPiloted (candidateId : JStr)
  | CandidateElected (candidateId : JStr)
deriving DecidableEq

/-- The legacy generation's `CANDIDATE_STATUS_CHANGE` branch
(`src/clients/base-evernode-client.js`): `candidateId` is the first 64
hex characters of the first memo's data, and for a DudHost candidate the
`host` field is produced by applying `codec.decodeAccountID` — the
address-string → bytes direction — to the raw 20 bytes sliced from the
candidate id at offset 12.  The other two switch cases compare against
`EvernodeConstants.CandidateTypes.GovernanceModeChanged` and
`.CandidateProposed`, keys that do not exist in `CandidateTypes` (both
`undefined`), so no real candidate type ever matches them and every
non-DudHost id falls to the `default: return null`. -/
def legacyCandidateStatusChangeEvent (memoData : JStr) : Option LegacyEvent :=
  let candidateId := memoData.take 64
  match getCandidateType candidateId with
  | .DudHost =>
    some (.DudHostRemoved candidateId
      (.decodeID (((hexToBytes candidateId).drop 12).take 20)))
  | _ => none

/-- C9: on a DudHost candidate-status-change the legacy classifier
produces the host field by applying the account-id *decoding* function
(address-string → bytes) to the raw bytes embedded at offset 12 of the
candidate id — the opposite of the raw-bytes → address-string
(encoding) direction that the claim states as the contract and that the
current-generation branch (`branchCandidateStatusChange`) uses. -/
theorem legacyCandidateStatusChange_uses_decode_direction :
    legacyCandidateStatusChangeEvent
        (hexOfBytesLower (DUD_HOST_CANDID_DISCRIMINANT ++ List.replicate 20 9))
      = some (.DudHostRemoved
          (hexOfBytesLower (DUD_HOST_CANDID_DISCRIMINANT ++ List.replicate 20 9))
          (.decodeID (List.replicate 20 9)))
    ∧ AccountIdOp.decodeID (List.replicate 20 9)
        ≠ AccountIdOp.encodeID (List.replicate 20 9) := by
  exact ⟨by decide, by decide⟩

end Evernode
